import Mathlib

/-!
# Session and ledger reconciliation layer of the Magreste ICP frontend

Shallow embedding of `src/magreste_labs_frontend/src/utils/ic-agent.js` (class `ICAgent`),
`src/magreste_labs_frontend/src/hooks/useIC.js` (hook `useIC`) and `src/App.jsx`
(component `App`).

Conventions of the embedding.

* Every `await` on an external collaborator (the identity provider, the canister actor) is
  an argument of the operation: the value the collaborator answers with, should it be asked.
  Whether it is asked at all is decided by the code and recorded in the trace.
* An operation runs from its invocation to the point where it settles; the states the user
  interface shows while a remote call is in flight are recorded with the call.
* JavaScript built-ins whose result depends on the run-time representation of numbers
  (`Number(..)`, number to text) are parameters, gathered in `Js`.
* Where the order of events matters, time and pending work are explicit: `Timed` carries the
  clock and the timers of `showNotification`, and `Refreshing` carries the refresh fetches
  in flight, `loadProperties` and `loadUserTokens` being cut at their `await`.
-/

namespace Magreste

/-! ## JavaScript values -/

/-- A thrown JavaScript value, seen through what `err.message` reads from it. -/
structure JsError where
  message : String
deriving DecidableEq, Repr

/-- How an awaited promise settles: it resolves with a value or rejects with an error. -/
inductive Outcome (α : Type) where
  | resolved (value : α)
  | rejected (error : JsError)
deriving DecidableEq, Repr

/-- Built-ins of the host language used by the component: `Number(x)` on a value decoded
from the canister answer, the text of a number inside a template literal, and the literal
`1`. `Raw` is the type of decoded Candid numbers, `Num` the type of JavaScript numbers. -/
structure Js (Raw Num : Type) where
  Number : Raw → Num
  numText : Num → String
  one : Num

/-- The error raised by `new Error(msg)`. -/
def mkError (msg : String) : JsError := ⟨msg⟩

/-- The `TypeError` raised when a method is read from `this.authClient` while it is still
`null`; the text is the one V8 produces, without the name of the property. -/
def nullAuthClientError : JsError := ⟨"Cannot read properties of null"⟩

/-! ## Identity provider and canister actor -/

/-- An identity, seen through `getPrincipal().toString()`. -/
structure Identity where
  principal : String
deriving DecidableEq, Repr

/-- The identity `getIdentity()` answers with while nobody is logged in. -/
def anonymousIdentity : Identity := ⟨"2vxsx-fae"⟩

/-- The `AuthClient` of `@dfinity/auth-client`: it holds the delegation of the logged-in
user, if any. -/
structure AuthClient where
  session : Option Identity
deriving DecidableEq, Repr

def AuthClient.isAuthenticated (c : AuthClient) : Bool := c.session.isSome

def AuthClient.getIdentity (c : AuthClient) : Identity := c.session.getD anonymousIdentity

/-- The actor built by `Actor.createActor` over an `HttpAgent`; it remembers the identity
the agent was constructed with (`identity: this.identity`). -/
structure Actor where
  identity : Option Identity
deriving DecidableEq, Repr

/-- Answer of `buyTokens` / `transferTokens`: the Candid variant with key `ok` or `err`. -/
inductive LedgerResult where
  | ok
  | err (reason : String)
deriving DecidableEq, Repr

/-- One element of the answer of `getUserTokens`. -/
structure TokenData (Raw : Type) where
  propertyId : Raw
  amount : Raw
deriving DecidableEq, Repr

/-- One element of the answer of `getProperties`. `status` lists the keys of the variant
object, `imageUrl` is `none` when the field is absent. -/
structure PropertyRecord (Raw : Type) where
  id : Raw
  title : String
  location : String
  price : Raw
  tokenPrice : Raw
  totalTokens : Raw
  availableTokens : Raw
  soldTokens : Raw
  imageUrl : Option String
  status : List String
  bedrooms : Raw
  bathrooms : Raw
  area : Raw
  description : String
deriving DecidableEq, Repr

/-- Invocations of external collaborators: the first four reach the identity provider or
the replica, the others are methods of the canister actor. -/
inductive Call (Num : Type) where
  | authCreate
  | authLogin
  | authLogout
  | fetchRootKey
  | getProperties
  | buyTokens (propertyId amount : Num)
  | getUserTokens
  | transferTokens (propertyId : Option Num) (amount : Num) (recipient : String)
  | getPropertyDetails (propertyId : Num)
  | getUserBalance
  | getUserTransactionHistory
deriving DecidableEq, Repr

/-! ## `ICAgent` (utils/ic-agent.js) -/

/-- Fields of the `ICAgent` singleton; the constructor sets all three to `null`. -/
structure ICAgent where
  authClient : Option AuthClient := none
  actor : Option Actor := none
  identity : Option Identity := none
deriving DecidableEq, Repr

section Agent
variable {Raw Num : Type}

/-- `createActor()`: builds an `HttpAgent` over `this.identity`, fetches the root key
outside production (answer `rootKey`), then stores a new actor. -/
def ICAgent.createActor (a : ICAgent) (production : Bool) (rootKey : Outcome Unit) :
    Outcome Unit × ICAgent × List (Call Num) :=
  if production then
    (.resolved (), { a with actor := some ⟨a.identity⟩ }, [])
  else
    match rootKey with
    | .rejected e => (.rejected e, a, [.fetchRootKey])
    | .resolved _ => (.resolved (), { a with actor := some ⟨a.identity⟩ }, [.fetchRootKey])

/-- `init()`: creates the auth client (answer `created`) and, when it holds a session,
adopts its identity and builds the actor. -/
def ICAgent.init (a : ICAgent) (created : Outcome AuthClient) (production : Bool)
    (rootKey : Outcome Unit) : Outcome Unit × ICAgent × List (Call Num) :=
  match created with
  | .rejected e => (.rejected e, a, [.authCreate])
  | .resolved c =>
    let a1 := { a with authClient := some c }
    if c.isAuthenticated then
      let a2 := { a1 with identity := some c.getIdentity }
      match a2.createActor production rootKey with
      | (r, a3, cs) => (r, a3, .authCreate :: cs)
    else
      (.resolved (), a1, [.authCreate])

/-- `login()`: the promise around `authClient.login`. The provider answers `provider`:
an identity (`onSuccess`) or an error (`onError: reject`). `onSuccess` is an `async`
callback: when `createActor` throws inside it, neither `resolve` nor `reject` is reached
and the promise never settles, which is the result `none`. -/
def ICAgent.login (a : ICAgent) (provider : Outcome Identity) (production : Bool)
    (rootKey : Outcome Unit) : Option (Outcome String) × ICAgent × List (Call Num) :=
  match a.authClient with
  | none => (some (.rejected nullAuthClientError), a, [])
  | some c =>
    match provider with
    | .rejected e => (some (.rejected e), a, [.authLogin])
    | .resolved i =>
      let c1 : AuthClient := { c with session := some i }
      let a1 := { a with authClient := some c1, identity := some c1.getIdentity }
      match a1.createActor production rootKey with
      | (.rejected _, a2, cs) => (none, a2, .authLogin :: cs)
      | (.resolved _, a2, cs) =>
        (some (.resolved ((a2.identity.getD anonymousIdentity).principal)), a2, .authLogin :: cs)

/-- `logout()`: awaits `authClient.logout()` (answer `r`), then clears identity and actor. -/
def ICAgent.logout (a : ICAgent) (r : Outcome Unit) :
    Outcome Unit × ICAgent × List (Call Num) :=
  match a.authClient with
  | none => (.rejected nullAuthClientError, a, [])
  | some c =>
    match r with
    | .rejected e => (.rejected e, a, [.authLogout])
    | .resolved _ =>
      (.resolved (), { authClient := some { c with session := none }, actor := none,
                       identity := none }, [.authLogout])

/-- The guard shared by the seven backend methods: `if (!this.actor) throw new
Error('Not authenticated')`, otherwise the actor method `c` is invoked and answers `r`. -/
def ICAgent.viaActor {α : Type} (a : ICAgent) (c : Call Num) (r : Outcome α) :
    Outcome α × List (Call Num) :=
  match a.actor with
  | none => (.rejected (mkError "Not authenticated"), [])
  | some _ => (r, [c])

def ICAgent.getProperties (a : ICAgent) (r : Outcome (List (PropertyRecord Raw))) :
    Outcome (List (PropertyRecord Raw)) × List (Call Num) :=
  a.viaActor .getProperties r

def ICAgent.buyTokens (a : ICAgent) (propertyId amount : Num) (r : Outcome LedgerResult) :
    Outcome LedgerResult × List (Call Num) :=
  a.viaActor (.buyTokens propertyId amount) r

def ICAgent.getUserTokens (a : ICAgent) (r : Outcome (List (TokenData Raw))) :
    Outcome (List (TokenData Raw)) × List (Call Num) :=
  a.viaActor .getUserTokens r

def ICAgent.transferTokens (a : ICAgent) (propertyId : Option Num) (amount : Num)
    (recipient : String) (r : Outcome LedgerResult) :
    Outcome LedgerResult × List (Call Num) :=
  a.viaActor (.transferTokens propertyId amount recipient) r

def ICAgent.getPropertyDetails {α : Type} (a : ICAgent) (propertyId : Num) (r : Outcome α) :
    Outcome α × List (Call Num) :=
  a.viaActor (.getPropertyDetails propertyId) r

def ICAgent.getUserBalance {α : Type} (a : ICAgent) (r : Outcome α) :
    Outcome α × List (Call Num) :=
  a.viaActor .getUserBalance r

def ICAgent.getUserTransactionHistory {α : Type} (a : ICAgent) (r : Outcome α) :
    Outcome α × List (Call Num) :=
  a.viaActor .getUserTransactionHistory r

/-- `isAuthenticated()`: `this.authClient?.isAuthenticated() || false`. -/
def ICAgent.isAuthenticated (a : ICAgent) : Bool :=
  match a.authClient with
  | none => false
  | some c => c.isAuthenticated

/-- `getPrincipal()`: `this.identity?.getPrincipal().toString() || ''`. -/
def ICAgent.getPrincipal (a : ICAgent) : String :=
  match a.identity with
  | none => ""
  | some i => i.principal

end Agent

/-! ## React state -/

/-- State of the `useIC` hook (hooks/useIC.js, lines 6-9). -/
structure ICState where
  isConnected : Bool := false
  principal : String := ""
  isLoading : Bool := false
  error : Option String := none
deriving DecidableEq, Repr

/-- A property as stored in the catalog cache (App.jsx, lines 54-69). `status` is
`Object.keys(property.status)[0]`, which is `undefined` (`none`) for an object without keys. -/
structure Property (Num : Type) where
  id : Num
  title : String
  location : String
  price : Num
  tokenPrice : Num
  totalTokens : Num
  availableTokens : Num
  soldTokens : Num
  image : String
  status : Option String
  bedrooms : Num
  bathrooms : Num
  area : Num
  description : String
deriving DecidableEq, Repr

/-- The object `{ message, type }` given to `setNotification`. -/
structure Notification where
  message : String
  type : String
deriving DecidableEq, Repr

/-- Local state of `App` (App.jsx, lines 28-37). The object `userTokens` is an association
list from key to amount with one entry per key. A key is the number the property name was
made from (the text of a number determines it); entries are listed in the order their keys
were first written, an order the component never reads. -/
structure AppState (Num : Type) where
  properties : List (Property Num)
  userTokens : List (Num × Num)
  selectedProperty : Option (Property Num)
  purchaseAmount : Num
  isLoading : Bool
  notification : Option Notification
  transferAmount : Num
  showTransferModal : Bool
  transferPropertyId : Option Num
  recipientPrincipal : String
deriving DecidableEq, Repr

/-- The values of the `useState` initialisers of `App`. -/
def AppState.initial {Raw Num : Type} (js : Js Raw Num) : AppState Num :=
  { properties := [], userTokens := [], selectedProperty := none, purchaseAmount := js.one,
    isLoading := false, notification := none, transferAmount := js.one,
    showTransferModal := false, transferPropertyId := none, recipientPrincipal := "" }

/-- What the user interface renders from: the state of the hook and of `App`. -/
structure View (Num : Type) where
  ic : ICState
  app : AppState Num
deriving DecidableEq, Repr

/-- The whole client: the `icAgent` singleton and the React state. -/
structure World (Num : Type) where
  agent : ICAgent
  ic : ICState
  app : AppState Num
deriving DecidableEq, Repr

def World.view {Num : Type} (w : World Num) : View Num := ⟨w.ic, w.app⟩

/-- The client right after the first render, before `initIC` has run. -/
def World.initial {Raw Num : Type} (js : Js Raw Num) : World Num :=
  { agent := {}, ic := {}, app := AppState.initial js }

/-- Observable effects, oldest first. `call c v`: the external call `c` was issued, and `v`
is the React state on screen while it is in flight. `notify n`: `setNotification(n)` inside
`showNotification`. `setTimeout ms`: a timer that will run `setNotification(null)`.
`consoleError`: a line written by `console.error`. -/
inductive Event (Num : Type) where
  | call (c : Call Num) (during : View Num)
  | notify (n : Notification)
  | setTimeout (ms : Nat)
  | consoleError (label : String) (error : JsError)
deriving DecidableEq, Repr

/-- A run of the client: its current state and everything it has done so far. -/
structure Exec (Num : Type) where
  w : World Num
  trace : List (Event Num)
deriving DecidableEq, Repr

section Run
variable {Raw Num : Type}

def Exec.setApp (x : Exec Num) (f : AppState Num → AppState Num) : Exec Num :=
  { x with w := { x.w with app := f x.w.app } }

def Exec.setIC (x : Exec Num) (f : ICState → ICState) : Exec Num :=
  { x with w := { x.w with ic := f x.w.ic } }

def Exec.setAgent (x : Exec Num) (a : ICAgent) : Exec Num :=
  { x with w := { x.w with agent := a } }

def Exec.emit (x : Exec Num) (es : List (Event Num)) : Exec Num :=
  { x with trace := x.trace ++ es }

/-- Records the external calls `cs`, each with the React state shown while it is pending. -/
def Exec.issue (x : Exec Num) (cs : List (Call Num)) : Exec Num :=
  x.emit (cs.map fun c => Event.call c x.w.view)

/-- The external calls of a trace, in order. -/
def callsOf : List (Event Num) → List (Call Num)
  | [] => []
  | .call c _ :: es => c :: callsOf es
  | _ :: es => callsOf es

/-- The notifications of a trace, in order. -/
def notificationsOf : List (Event Num) → List Notification
  | [] => []
  | .notify n :: es => n :: notificationsOf es
  | _ :: es => notificationsOf es

/-! ## `useIC` (hooks/useIC.js) -/

/-- The effect `initIC` run once after the first render (lines 11-26). -/
def useIC.initIC (x : Exec Num) (created : Outcome AuthClient) (production : Bool)
    (rootKey : Outcome Unit) : Exec Num :=
  match ICAgent.init x.w.agent created production rootKey with
  | (.resolved _, a, cs) =>
    let x1 := (x.issue cs).setAgent a
    let authenticated := a.isAuthenticated
    let x2 := x1.setIC fun s => { s with isConnected := authenticated }
    if authenticated then x2.setIC fun s => { s with principal := a.getPrincipal } else x2
  | (.rejected e, a, cs) =>
    ((x.issue cs).setAgent a).setIC fun s => { s with error := some e.message }

/-- `login` of the hook (lines 28-42). The result is `none` when `icAgent.login()` never
settles: the code after the `await`, the `catch` and the `finally` are then never run. -/
def useIC.login (x : Exec Num) (provider : Outcome Identity) (production : Bool)
    (rootKey : Outcome Unit) : Option (Outcome String) × Exec Num :=
  let x1 := x.setIC fun s => { s with isLoading := true, error := none }
  match ICAgent.login x1.w.agent provider production rootKey with
  | (none, a, cs) => (none, (x1.issue cs).setAgent a)
  | (some (.resolved principalId), a, cs) =>
    let x2 := (x1.issue cs).setAgent a
    let x3 := x2.setIC fun s => { s with isConnected := true, principal := principalId }
    (some (.resolved principalId), x3.setIC fun s => { s with isLoading := false })
  | (some (.rejected err), a, cs) =>
    let x2 := (x1.issue cs).setAgent a
    let x3 := x2.setIC fun s => { s with error := some err.message }
    (some (.rejected err), x3.setIC fun s => { s with isLoading := false })

/-- `logout` of the hook (lines 44-55). Its `catch` does not rethrow, so the promise it
returns always resolves. -/
def useIC.logout (x : Exec Num) (r : Outcome Unit) : Outcome Unit × Exec Num :=
  let x1 := x.setIC fun s => { s with isLoading := true }
  match ICAgent.logout x1.w.agent r with
  | (.resolved _, a, cs) =>
    let x2 := (x1.issue cs).setAgent a
    let x3 := x2.setIC fun s => { s with isConnected := false, principal := "" }
    (.resolved (), x3.setIC fun s => { s with isLoading := false })
  | (.rejected err, a, cs) =>
    let x2 := (x1.issue cs).setAgent a
    let x3 := x2.setIC fun s => { s with error := some err.message }
    (.resolved (), x3.setIC fun s => { s with isLoading := false })

/-- `buyTokens` of the hook (lines 57-69). -/
def useIC.buyTokens (x : Exec Num) (propertyId amount : Num) (r : Outcome LedgerResult) :
    Outcome LedgerResult × Exec Num :=
  let x1 := x.setIC fun s => { s with isLoading := true, error := none }
  match ICAgent.buyTokens x1.w.agent propertyId amount r with
  | (.resolved result, cs) =>
    (.resolved result, (x1.issue cs).setIC fun s => { s with isLoading := false })
  | (.rejected err, cs) =>
    let x2 := (x1.issue cs).setIC fun s => { s with error := some err.message }
    (.rejected err, x2.setIC fun s => { s with isLoading := false })

/-- `getUserTokens` of the hook (lines 71-78). -/
def useIC.getUserTokens (x : Exec Num) (r : Outcome (List (TokenData Raw))) :
    Outcome (List (TokenData Raw)) × Exec Num :=
  match ICAgent.getUserTokens x.w.agent r with
  | (.resolved data, cs) => (.resolved data, x.issue cs)
  | (.rejected err, cs) =>
    (.rejected err, (x.issue cs).setIC fun s => { s with error := some err.message })

/-- `getProperties` of the hook (lines 80-87). -/
def useIC.getProperties (x : Exec Num) (r : Outcome (List (PropertyRecord Raw))) :
    Outcome (List (PropertyRecord Raw)) × Exec Num :=
  match ICAgent.getProperties x.w.agent r with
  | (.resolved data, cs) => (.resolved data, x.issue cs)
  | (.rejected err, cs) =>
    (.rejected err, (x.issue cs).setIC fun s => { s with error := some err.message })

/-- `transferTokens` of the hook (lines 89-101). -/
def useIC.transferTokens (x : Exec Num) (propertyId : Option Num) (amount : Num)
    (recipient : String) (r : Outcome LedgerResult) : Outcome LedgerResult × Exec Num :=
  let x1 := x.setIC fun s => { s with isLoading := true, error := none }
  match ICAgent.transferTokens x1.w.agent propertyId amount recipient r with
  | (.resolved result, cs) =>
    (.resolved result, (x1.issue cs).setIC fun s => { s with isLoading := false })
  | (.rejected err, cs) =>
    let x2 := (x1.issue cs).setIC fun s => { s with error := some err.message }
    (.rejected err, x2.setIC fun s => { s with isLoading := false })

end Run

/-! ## `App` (App.jsx) -/

/-- White space and line terminators removed by `String.prototype.trim` (ECMAScript
`WhiteSpace` and `LineTerminator`). -/
def isJsWhiteSpace (c : Char) : Bool :=
  c.val = 0x9 || c.val = 0xA || c.val = 0xB || c.val = 0xC || c.val = 0xD || c.val = 0x20 ||
  c.val = 0xA0 || c.val = 0x1680 || (0x2000 ≤ c.val && c.val ≤ 0x200A) || c.val = 0x2028 ||
  c.val = 0x2029 || c.val = 0x202F || c.val = 0x205F || c.val = 0x3000 || c.val = 0xFEFF

/-- `s.trim()`. -/
def jsTrim (s : String) : String :=
  String.mk ((s.data.dropWhile isJsWhiteSpace).reverse.dropWhile isJsWhiteSpace).reverse

/-- Truthiness of a string: only the empty string is falsy. -/
def truthy (s : String) : Bool := s.data.length != 0

section AppOps
variable {Raw Num : Type}

/-- `tokensMap[k] = v` on an object: the entry of `k` is overwritten in place, a new key is
added at the end. -/
def objSet [DecidableEq Num] : List (Num × Num) → Num → Num → List (Num × Num)
  | [], k, v => [(k, v)]
  | (k0, v0) :: m, k, v => if k0 = k then (k0, v) :: m else (k0, v0) :: objSet m k v

/-- `obj[k]`, `none` standing for `undefined`. -/
def objGet [DecidableEq Num] : List (Num × Num) → Num → Option Num
  | [], _ => none
  | (k0, v0) :: m, k => if k0 = k then some v0 else objGet m k

/-- The callback of `propertiesData.map` in `loadProperties` (lines 54-69). -/
def formatProperty (js : Js Raw Num) (property : PropertyRecord Raw) : Property Num :=
  { id := js.Number property.id
    title := property.title
    location := property.location
    price := js.Number property.price
    tokenPrice := js.Number property.tokenPrice
    totalTokens := js.Number property.totalTokens
    availableTokens := js.Number property.availableTokens
    soldTokens := js.Number property.soldTokens
    image := match property.imageUrl with
      | some url => if truthy url then url else "/api/placeholder/400/300"
      | none => "/api/placeholder/400/300"
    status := property.status.head?
    bedrooms := js.Number property.bedrooms
    bathrooms := js.Number property.bathrooms
    area := js.Number property.area
    description := property.description }

/-- The object built by the `forEach` of `loadUserTokens` (lines 84-87), from `{}`. -/
def buildTokensMap [DecidableEq Num] (js : Js Raw Num) (tokensData : List (TokenData Raw)) :
    List (Num × Num) :=
  tokensData.foldl (fun tokensMap tokenData =>
    objSet tokensMap (js.Number tokenData.propertyId) (js.Number tokenData.amount)) []

/-- `showNotification` (lines 118-121). -/
def App.showNotification (x : Exec Num) (message type : String) : Exec Num :=
  (x.setApp fun s => { s with notification := some ⟨message, type⟩ }).emit
    [.notify ⟨message, type⟩, .setTimeout 3000]

/-- `loadProperties` (lines 48-77); `r` is the answer of the canister to `getProperties`. -/
def App.loadProperties (js : Js Raw Num) (x : Exec Num)
    (r : Outcome (List (PropertyRecord Raw))) : Exec Num :=
  let x1 := x.setApp fun s => { s with isLoading := true }
  let x3 := match useIC.getProperties x1 r with
    | (.resolved propertiesData, x2) =>
      x2.setApp fun s => { s with properties := propertiesData.map (formatProperty js) }
    | (.rejected error, x2) =>
      App.showNotification x2 ("Error al cargar propiedades: " ++ error.message) "error"
  x3.setApp fun s => { s with isLoading := false }

/-- `loadUserTokens` (lines 80-93); `r` is the answer of the canister to `getUserTokens`. -/
def App.loadUserTokens [DecidableEq Num] (js : Js Raw Num) (x : Exec Num)
    (r : Outcome (List (TokenData Raw))) : Exec Num :=
  match useIC.getUserTokens x r with
  | (.resolved tokensData, x1) =>
    x1.setApp fun s => { s with userTokens := buildTokensMap js tokensData }
  | (.rejected error, x1) =>
    x1.emit [.consoleError "Error al cargar tokens del usuario:" error]

/-- `connectWithII` (lines 96-103). The first component tells whether the operation has
settled: it has not when `login()` never settles. -/
def App.connectWithII (x : Exec Num) (provider : Outcome Identity) (production : Bool)
    (rootKey : Outcome Unit) : Bool × Exec Num :=
  match useIC.login x provider production rootKey with
  | (none, x1) => (false, x1)
  | (some (.resolved _), x1) =>
    (true, App.showNotification x1 "Conectado exitosamente con Internet Identity" "success")
  | (some (.rejected error), x1) =>
    (true, App.showNotification x1 ("Error al conectar: " ++ error.message) "error")

/-- `disconnect` (lines 106-115); `r` is the answer of the provider to `logout`. -/
def App.disconnect (x : Exec Num) (r : Outcome Unit) : Exec Num :=
  match useIC.logout x r with
  | (.resolved _, x1) =>
    let x2 := x1.setApp fun s => { s with properties := [] }
    let x3 := x2.setApp fun s => { s with userTokens := [] }
    App.showNotification x3 "Desconectado exitosamente" "success"
  | (.rejected error, x1) =>
    App.showNotification x1 ("Error al desconectar: " ++ error.message) "error"

/-- The text of `property?.title` inside a template literal. -/
def titleText (property : Option (Property Num)) : String :=
  match property with
  | some p => p.title
  | none => "undefined"

/-- `buyTokens` (lines 124-150). `isConnected` and `properties` are read from the render
the handler was created in, which is the state at invocation. `rBuy`, `rProps` and
`rTokens` are the answers of the canister to `buyTokens`, `getProperties` and
`getUserTokens`. -/
def App.buyTokens [DecidableEq Num] (js : Js Raw Num) (x : Exec Num) (propertyId amount : Num)
    (rBuy : Outcome LedgerResult) (rProps : Outcome (List (PropertyRecord Raw)))
    (rTokens : Outcome (List (TokenData Raw))) : Exec Num :=
  if !x.w.ic.isConnected then
    App.showNotification x "Debes conectarte primero" "error"
  else
    let x1 := x.setApp fun s => { s with isLoading := true }
    let x7 := match useIC.buyTokens x1 propertyId amount rBuy with
      | (.resolved .ok, x2) =>
        let x3 := App.loadProperties js x2 rProps
        let x4 := App.loadUserTokens js x3 rTokens
        let property := x.w.app.properties.find? fun (p : Property Num) => p.id = propertyId
        let x5 := App.showNotification x4
          ("¡Compra exitosa! " ++ js.numText amount ++ " tokens de " ++ titleText property)
          "success"
        x5.setApp fun s => { s with selectedProperty := none }
      | (.resolved (.err reason), x2) =>
        App.showNotification x2 ("Error en la compra: " ++ reason) "error"
      | (.rejected error, x2) =>
        App.showNotification x2 ("Error en la compra: " ++ error.message) "error"
    x7.setApp fun s => { s with isLoading := false }

/-- `transferTokens` (lines 153-182). `isConnected`, `recipientPrincipal`,
`transferPropertyId` and `transferAmount` are read from the render the handler was created
in. `rTransfer` and `rTokens` are the answers of the canister. -/
def App.transferTokens [DecidableEq Num] (js : Js Raw Num) (x : Exec Num)
    (rTransfer : Outcome LedgerResult) (rTokens : Outcome (List (TokenData Raw))) :
    Exec Num :=
  if !x.w.ic.isConnected || !truthy (jsTrim x.w.app.recipientPrincipal) then
    App.showNotification x "Debes proporcionar un Principal válido" "error"
  else
    let x1 := x.setApp fun s => { s with isLoading := true }
    let x7 := match useIC.transferTokens x1 x.w.app.transferPropertyId x.w.app.transferAmount
        (jsTrim x.w.app.recipientPrincipal) rTransfer with
      | (.resolved .ok, x2) =>
        let x3 := App.loadUserTokens js x2 rTokens
        let x4 := App.showNotification x3
          (js.numText x.w.app.transferAmount ++ " tokens transferidos exitosamente") "success"
        let x5 := x4.setApp fun s => { s with showTransferModal := false }
        let x6 := x5.setApp fun s => { s with transferAmount := js.one }
        x6.setApp fun s => { s with recipientPrincipal := "" }
      | (.resolved (.err reason), x2) =>
        App.showNotification x2 ("Error en la transferencia: " ++ reason) "error"
      | (.rejected error, x2) =>
        App.showNotification x2 ("Error en la transferencia: " ++ error.message) "error"
    x7.setApp fun s => { s with isLoading := false }

/-- Whether `App` renders the purchase modal (lines 193-200 and 242). -/
def App.showsPurchaseModal (v : View Num) : Bool :=
  v.ic.isConnected && v.app.selectedProperty.isSome

/-- Whether `App` renders the transfer modal (lines 193-200 and 254). -/
def App.showsTransferModal (v : View Num) : Bool :=
  v.ic.isConnected && v.app.showTransferModal

/-- The `disabled` attribute of the confirm button of `PurchaseModal` (line 66). -/
def PurchaseModal.confirmDisabled (isLoading : Bool) : Bool := isLoading

/-- The `disabled` attribute of the confirm button of `TransferModal` (line 66). -/
def TransferModal.confirmDisabled (isLoading : Bool) (recipientPrincipal : String) : Bool :=
  isLoading || !truthy (jsTrim recipientPrincipal)

end AppOps

/-! ## Concrete instances used to evaluate the model -/

/-- Numbers small enough to be exact: `Number` is the identity on them. -/
def natJs : Js Nat Nat := { Number := id, numText := toString, one := 1 }

/-- An agent whose auth client holds no session: what `init()` leaves when nobody is
logged in. -/
def anonymousAgent : ICAgent := { authClient := some ⟨none⟩ }

/-- An agent bound to the identity with principal text `aaaaa-aa`. -/
def boundAgent : ICAgent :=
  { authClient := some ⟨some ⟨"aaaaa-aa"⟩⟩, actor := some ⟨some ⟨"aaaaa-aa"⟩⟩,
    identity := some ⟨"aaaaa-aa"⟩ }

/-- A catalog entry with id 1 and ten tokens on offer. -/
def sampleProperty : Property Nat :=
  { id := 1, title := "Casa", location := "Lima", price := 1000, tokenPrice := 10,
    totalTokens := 100, availableTokens := 10, soldTokens := 90, image := "",
    status := some "disponible", bedrooms := 2, bathrooms := 1, area := 80, description := "" }

/-- An anonymous client with nothing cached. -/
def anonymousExec : Exec Nat :=
  { w := { agent := anonymousAgent, ic := {}, app := AppState.initial natJs }, trace := [] }

/-- A connected client: one property cached and selected in the purchase modal, five tokens
of it owned, and the transfer modal open for it with recipient `bob`. -/
def connectedExec : Exec Nat :=
  { w := { agent := boundAgent
           ic := { isConnected := true, principal := "aaaaa-aa" }
           app := { AppState.initial natJs with
                    properties := [sampleProperty], userTokens := [(1, 5)],
                    selectedProperty := some sampleProperty, showTransferModal := true,
                    transferPropertyId := some 1, recipientPrincipal := "bob" } }
    trace := [] }

/-- Whether the identity an answer of the provider carries, if any, has a non-empty
principal text. The textual form of a principal always holds its checksum, so every
identity the provider can issue satisfies this. -/
def issuesNamedIdentity (i : Option Identity) : Prop :=
  ∀ j, i = some j → j.principal ≠ ""

/-- The identity carried by the answer of `AuthClient.create()`. -/
def createdIdentity : Outcome AuthClient → Option Identity
  | .resolved c => c.session
  | .rejected _ => none

/-- The identity carried by the answer of the provider to `login`. -/
def providedIdentity : Outcome Identity → Option Identity
  | .resolved i => some i
  | .rejected _ => none

/-- States of the client reachable through the session operations of the hook. `initIC`
is the mount effect (empty dependency list): it runs while the singleton has no auth client
yet. `login` and `logout` may follow in any order and with any answer of the provider. -/
inductive HookReachable {Raw Num : Type} (js : Js Raw Num) : Exec Num → Prop where
  | mount : HookReachable js ⟨World.initial js, []⟩
  | initIC (x : Exec Num) (created : Outcome AuthClient) (production : Bool)
      (rootKey : Outcome Unit) :
      HookReachable js x → x.w.agent.authClient = none →
      issuesNamedIdentity (createdIdentity created) →
      HookReachable js (useIC.initIC x created production rootKey)
  | login (x : Exec Num) (provider : Outcome Identity) (production : Bool)
      (rootKey : Outcome Unit) :
      HookReachable js x → issuesNamedIdentity (providedIdentity provider) →
      HookReachable js (useIC.login x provider production rootKey).2
  | logout (x : Exec Num) (r : Outcome Unit) :
      HookReachable js x → HookReachable js (useIC.logout x r).2

/-- The client after the mount effect found no stored session and a login succeeded
(production build). -/
def loggedInAfterMount : Exec Nat :=
  (useIC.login
    (useIC.initIC ⟨World.initial natJs, []⟩ (.resolved ⟨none⟩) true (.resolved ()))
    (.resolved ⟨"aaaaa-aa"⟩) true (.resolved ())).2

/-- A `disconnect` on the connected client in which the identity provider rejects the
logout. -/
def disconnectAfterFailedLogout : Exec Nat :=
  App.disconnect connectedExec (.rejected ⟨"Failed to fetch"⟩)

/-- The login attempt in which the provider hands out an identity and the root key of the
replica cannot be fetched afterwards (development build). -/
def loginWithActorFailure : Bool × Exec Nat :=
  App.connectWithII anonymousExec (.resolved ⟨"aaaaa-aa"⟩) false
    (.rejected ⟨"Failed to fetch"⟩)

/-- The record the canister holds for property 1 once one more token has been sold. -/
def recordAfterBuy : PropertyRecord Nat :=
  { id := 1, title := "Casa", location := "Lima", price := 1000, tokenPrice := 10,
    totalTokens := 100, availableTokens := 9, soldTokens := 91, imageUrl := none,
    status := ["disponible"], bedrooms := 2, bathrooms := 1, area := 80, description := "" }

/-- An accepted purchase of one token of property 1 on the connected client; both
refreshes are answered. -/
def acceptedBuy : Exec Nat :=
  App.buyTokens natJs connectedExec 1 1 (.resolved .ok) (.resolved [recordAfterBuy])
    (.resolved [⟨1, 6⟩])

/-- The React state on screen while the `getUserTokens` call of `acceptedBuy` is pending. -/
def viewDuringLedgerRefresh : View Nat :=
  { ic := connectedExec.w.ic
    app := { connectedExec.w.app with
             properties := [formatProperty natJs recordAfterBuy], isLoading := false } }

/-- The client as it stands while the `getUserTokens` call of `acceptedBuy` is pending. -/
def duringLedgerRefresh : Exec Nat :=
  { w := { agent := connectedExec.w.agent, ic := viewDuringLedgerRefresh.ic,
           app := viewDuringLedgerRefresh.app }
    trace := [] }

/-! ## Timers of `showNotification` -/

/-- The delays of the timers requested in a trace, in order. -/
def timeoutsOf {Num : Type} : List (Event Num) → List Nat
  | [] => []
  | .setTimeout ms :: es => ms :: timeoutsOf es
  | _ :: es => timeoutsOf es

/-- The client with a wall clock (milliseconds) and the instants at which the pending
`() => setNotification(null)` callbacks are due. Nothing in the component cancels a timer. -/
structure Timed (Num : Type) where
  x : Exec Num
  now : Nat
  timers : List Nat
deriving DecidableEq, Repr

/-- Runs a piece of the client at the current instant and arms the timers it requested. -/
def Timed.run {Num : Type} (t : Timed Num) (op : Exec Num → Exec Num) : Timed Num :=
  { x := op t.x
    now := t.now
    timers := t.timers ++
      (timeoutsOf ((op t.x).trace.drop t.x.trace.length)).map fun ms => t.now + ms }

/-- A call of `showNotification` at the current instant. -/
def Timed.showNotification {Num : Type} (t : Timed Num) (message type : String) : Timed Num :=
  t.run fun x => App.showNotification x message type

/-- Lets `ms` milliseconds pass. Every timer due by then fires; each one runs
`setNotification(null)`, whatever notification is on screen at that moment. -/
def Timed.advance {Num : Type} (t : Timed Num) (ms : Nat) : Timed Num :=
  { x := if (t.timers.filter fun due => due ≤ t.now + ms).isEmpty then t.x
         else t.x.setApp fun s => { s with notification := none }
    now := t.now + ms
    timers := t.timers.filter fun due => t.now + ms < due }

/-- The connected client at instant 0 with no timer pending. -/
def timedStart : Timed Nat := { x := connectedExec, now := 0, timers := [] }

/-- Two notifications two seconds apart: the first at instant 0, the second at instant
2000. -/
def twoNotifications : Timed Nat :=
  ((timedStart.showNotification "Error en la compra: sin saldo" "error").advance 2000
    ).showNotification "¡Compra exitosa! 1 tokens de Casa" "success"

/-! ## The amount fields (PunchaseModal.js, TransferModal.js) -/

/-- The numbers an amount field can hold: an integer-valued double, `NaN` or an infinity.
`-0` and `+0` are both `int 0`. -/
inductive JsNumber where
  | nan
  | int (v : Int)
  | posInf
  | negInf
deriving DecidableEq, Repr

/-- How many low bits a natural number has beyond the 53 a double keeps; the first
argument bounds the number of halvings and is given the number itself. -/
def excessBits : Nat → Nat → Nat
  | 0, _ => 0
  | fuel + 1, n => if n < 2 ^ 53 then 0 else excessBits fuel (n / 2) + 1

/-- The double nearest to a natural number (round to nearest, ties to even), itself a
natural number; `none` when the result is beyond the largest double, which is `Infinity`. -/
def roundToDouble (n : Nat) : Option Nat :=
  if n < 2 ^ 53 then some n
  else
    let e := excessBits n n
    let q := n / 2 ^ e
    let r := n % 2 ^ e
    let q1 := if 2 ^ e < 2 * r ∨ (2 * r = 2 ^ e ∧ q % 2 = 1) then q + 1 else q
    if q1 * 2 ^ e < 2 ^ 1024 then some (q1 * 2 ^ e) else none

/-- The value of a character as a digit of the given radix, if it is one. -/
def digitValue (radix : Nat) (c : Char) : Option Nat :=
  let v : Option Nat :=
    if 48 ≤ c.toNat ∧ c.toNat ≤ 57 then some (c.toNat - 48)
    else if 97 ≤ c.toNat ∧ c.toNat ≤ 122 then some (c.toNat - 87)
    else if 65 ≤ c.toNat ∧ c.toNat ≤ 90 then some (c.toNat - 55)
    else none
  match v with
  | some d => if d < radix then some d else none
  | none => none

/-- The values of the longest run of digits a text starts with. -/
def takeDigits (radix : Nat) : List Char → List Nat
  | [] => []
  | c :: cs =>
    match digitValue radix c with
    | some d => d :: takeDigits radix cs
    | none => []

/-- The integer written by a run of digits. -/
def digitsValue (radix : Nat) (ds : List Nat) : Nat :=
  ds.foldl (fun acc d => acc * radix + d) 0

/-- `parseInt(s)` with no radix argument (ECMAScript 19.2.5): leading white space is
skipped, a sign is read, `0x` or `0X` selects radix 16, the longest run of digits is read
(`NaN` when it is empty) and its value is rounded to a double. The standard lets an engine
zero the digits after the twentieth; the exact value is taken here. -/
def parseInt (s : String) : JsNumber :=
  let s0 := s.data.dropWhile isJsWhiteSpace
  let signed : Bool × List Char :=
    match s0 with
    | c :: rest =>
      if c.toNat = 45 then (true, rest) else if c.toNat = 43 then (false, rest) else (false, s0)
    | [] => (false, s0)
  let based : Nat × List Char :=
    match signed.2 with
    | c0 :: c1 :: rest =>
      if c0.toNat = 48 ∧ (c1.toNat = 120 ∨ c1.toNat = 88) then (16, rest) else (10, signed.2)
    | _ => (10, signed.2)
  let z := takeDigits based.1 based.2
  if z.isEmpty then .nan
  else
    match roundToDouble (digitsValue based.1 z) with
    | some v => .int (if signed.1 then -v else v)
    | none => if signed.1 then .negInf else .posInf

/-- Truthiness of a number: `NaN` and zero are falsy. -/
def JsNumber.truthy : JsNumber → Bool
  | .nan => false
  | .int v => v != 0
  | _ => true

/-- `a || b` on numbers. -/
def jsOr (a b : JsNumber) : JsNumber := if a.truthy then a else b

/-- `a ≤ b` on numbers other than `NaN`. -/
def JsNumber.le : JsNumber → JsNumber → Bool
  | .negInf, _ => true
  | _, .posInf => true
  | .int a, .int b => a ≤ b
  | _, _ => false

/-- `Math.max(a, b)`: `NaN` when an argument is `NaN`, otherwise the larger one. -/
def mathMax (a b : JsNumber) : JsNumber :=
  match a, b with
  | .nan, _ => .nan
  | _, .nan => .nan
  | a, b => if a.le b then b else a

/-- The expression of both `onChange` handlers: `Math.max(1, parseInt(value) || 1)`. -/
def amountFromInput (value : String) : JsNumber :=
  mathMax (.int 1) (jsOr (parseInt value) (.int 1))

/-- A positive integer. -/
def JsNumber.isPositiveInteger : JsNumber → Bool
  | .int v => 1 ≤ v
  | _ => false

/-- `onChange` of the amount field of `PurchaseModal` (line 30). -/
def PurchaseModal.onAmountChange (x : Exec JsNumber) (value : String) : Exec JsNumber :=
  x.setApp fun s => { s with purchaseAmount := amountFromInput value }

/-- `onChange` of the amount field of `TransferModal` (line 48). -/
def TransferModal.onAmountChange (x : Exec JsNumber) (value : String) : Exec JsNumber :=
  x.setApp fun s => { s with transferAmount := amountFromInput value }

section Handlers
variable {Raw Num : Type}

/-- `onBuyClick` of a property card (App.jsx, line 233). -/
def App.onBuyClick (x : Exec Num) (property : Property Num) : Exec Num :=
  x.setApp fun s => { s with selectedProperty := some property }

/-- `handleTransferClick` (App.jsx, lines 188-191). -/
def App.handleTransferClick (x : Exec Num) (propertyId : Num) : Exec Num :=
  (x.setApp fun s => { s with transferPropertyId := some propertyId }).setApp
    fun s => { s with showTransferModal := true }

/-- `onCancel` of the purchase modal (App.jsx, line 248). -/
def App.onPurchaseCancel (x : Exec Num) : Exec Num :=
  x.setApp fun s => { s with selectedProperty := none }

/-- `onCancel` of the transfer modal (App.jsx, lines 262-266). -/
def App.onTransferCancel (js : Js Raw Num) (x : Exec Num) : Exec Num :=
  ((x.setApp fun s => { s with showTransferModal := false }).setApp
    fun s => { s with transferAmount := js.one }).setApp
    fun s => { s with recipientPrincipal := "" }

/-- `onChange` of the recipient field of `TransferModal` (line 30). -/
def TransferModal.onRecipientChange (x : Exec Num) (value : String) : Exec Num :=
  x.setApp fun s => { s with recipientPrincipal := value }

/-- `onConfirm` of the purchase modal (App.jsx, line 247); the modal is rendered only while
a property is selected. -/
def App.onPurchaseConfirm [DecidableEq Num] (js : Js Raw Num) (x : Exec Num)
    (rBuy : Outcome LedgerResult) (rProps : Outcome (List (PropertyRecord Raw)))
    (rTokens : Outcome (List (TokenData Raw))) : Exec Num :=
  match x.w.app.selectedProperty with
  | some selectedProperty =>
    App.buyTokens js x selectedProperty.id x.w.app.purchaseAmount rBuy rProps rTokens
  | none => x

end Handlers

/-- A number that is at least 1: a positive integer or `Infinity`. -/
def JsNumber.atLeastOne : JsNumber → Bool
  | .int v => 1 ≤ v
  | .posInf => true
  | _ => false

/-- A run of 310 digits `9`, a text whose value is beyond the largest double. -/
def overlongDigits : String := String.mk (List.replicate 310 '9')

/-- States of `App` reachable from the first render: the mount effect, the operations of
`App` with any answer of the collaborators, and the handlers of the cards and modals with
any input. Amounts are JavaScript numbers. -/
inductive AppReachable {Raw : Type} (js : Js Raw JsNumber) : Exec JsNumber → Prop where
  | mount : AppReachable js ⟨World.initial js, []⟩
  | initIC (x : Exec JsNumber) (created : Outcome AuthClient) (production : Bool)
      (rootKey : Outcome Unit) :
      AppReachable js x → AppReachable js (useIC.initIC x created production rootKey)
  | connectWithII (x : Exec JsNumber) (provider : Outcome Identity) (production : Bool)
      (rootKey : Outcome Unit) :
      AppReachable js x → AppReachable js (App.connectWithII x provider production rootKey).2
  | disconnect (x : Exec JsNumber) (r : Outcome Unit) :
      AppReachable js x → AppReachable js (App.disconnect x r)
  | loadProperties (x : Exec JsNumber) (r : Outcome (List (PropertyRecord Raw))) :
      AppReachable js x → AppReachable js (App.loadProperties js x r)
  | loadUserTokens (x : Exec JsNumber) (r : Outcome (List (TokenData Raw))) :
      AppReachable js x → AppReachable js (App.loadUserTokens js x r)
  | buyTokens (x : Exec JsNumber) (propertyId amount : JsNumber)
      (rBuy : Outcome LedgerResult) (rProps : Outcome (List (PropertyRecord Raw)))
      (rTokens : Outcome (List (TokenData Raw))) :
      AppReachable js x →
      AppReachable js (App.buyTokens js x propertyId amount rBuy rProps rTokens)
  | transferTokens (x : Exec JsNumber) (rTransfer : Outcome LedgerResult)
      (rTokens : Outcome (List (TokenData Raw))) :
      AppReachable js x → AppReachable js (App.transferTokens js x rTransfer rTokens)
  | clearNotification (x : Exec JsNumber) :
      AppReachable js x → AppReachable js (x.setApp fun s => { s with notification := none })
  | onBuyClick (x : Exec JsNumber) (property : Property JsNumber) :
      AppReachable js x → AppReachable js (App.onBuyClick x property)
  | handleTransferClick (x : Exec JsNumber) (propertyId : JsNumber) :
      AppReachable js x → AppReachable js (App.handleTransferClick x propertyId)
  | onPurchaseCancel (x : Exec JsNumber) :
      AppReachable js x → AppReachable js (App.onPurchaseCancel x)
  | onTransferCancel (x : Exec JsNumber) :
      AppReachable js x → AppReachable js (App.onTransferCancel js x)
  | onRecipientChange (x : Exec JsNumber) (value : String) :
      AppReachable js x → AppReachable js (TransferModal.onRecipientChange x value)
  | purchaseAmountChange (x : Exec JsNumber) (value : String) :
      AppReachable js x → AppReachable js (PurchaseModal.onAmountChange x value)
  | transferAmountChange (x : Exec JsNumber) (value : String) :
      AppReachable js x → AppReachable js (TransferModal.onAmountChange x value)

/-- Built-ins over JavaScript numbers, for canister answers that carry natural numbers:
`Number` rounds to the nearest double. An integer is written with all its decimal digits,
which is what JavaScript prints for integers up to `2 ^ 53`. -/
def doubleJs : Js Nat JsNumber :=
  { Number := fun n =>
      match roundToDouble n with
      | some v => .int v
      | none => .posInf
    numText := fun v =>
      match v with
      | .nan => "NaN"
      | .int n => toString n
      | .posInf => "Infinity"
      | .negInf => "-Infinity"
    one := .int 1 }

/-- A connected client over JavaScript numbers: property 1 is cached with nine tokens on
offer and selected in the purchase modal, five of its tokens are owned, and the transfer
modal is open for it with recipient `bob`. -/
def typingClient : Exec JsNumber :=
  { w := { agent := boundAgent
           ic := { isConnected := true, principal := "aaaaa-aa" }
           app := { AppState.initial doubleJs with
                    properties := [formatProperty doubleJs recordAfterBuy]
                    userTokens := [(.int 1, .int 5)]
                    selectedProperty := some (formatProperty doubleJs recordAfterBuy)
                    showTransferModal := true
                    transferPropertyId := some (.int 1)
                    recipientPrincipal := "bob" } }
    trace := [] }

/-! ## Sample runs for the error paths -/

/-- The client right after a successful login from the anonymous state (production
build), before any refresh has been answered. -/
def justLoggedIn : Exec Nat :=
  (App.connectWithII anonymousExec (.resolved ⟨"aaaaa-aa"⟩) true (.resolved ())).2

/-- An accepted purchase on the connected client whose catalog refresh succeeds and whose
balance refresh fails. -/
def buyWithFailedLedgerRefresh : Exec Nat :=
  App.buyTokens natJs connectedExec 1 1 (.resolved .ok) (.resolved [recordAfterBuy])
    (.rejected ⟨"Failed to fetch"⟩)

/-- An accepted transfer on the connected client whose balance refresh succeeds. -/
def acceptedTransfer : Exec Nat :=
  App.transferTokens natJs connectedExec (.resolved .ok) (.resolved [⟨1, 4⟩])

/-- An accepted transfer on the connected client whose balance refresh fails. -/
def transferWithFailedLedgerRefresh : Exec Nat :=
  App.transferTokens natJs connectedExec (.resolved .ok) (.rejected ⟨"Failed to fetch"⟩)

/-- The `disabled` attribute of the connect button of `LoginScreen` (line 18), which `App`
feeds with the `isLoading` of the hook. -/
def LoginScreen.connectDisabled (isLoading : Bool) : Bool := isLoading

/-- The anonymous client while a first `login` is waiting for the identity provider: the
hook has set `isLoading` and cleared `error`, nothing else has run yet. -/
def loginPending : Exec Nat :=
  anonymousExec.setIC fun s => { s with isLoading := true, error := none }

/-- The connected client while a first `logout` is waiting for the identity provider. -/
def logoutPending : Exec Nat :=
  connectedExec.setIC fun s => { s with isLoading := true }

/-- The agent after `init()` restored the stored session of `aaaaa-aa` (development
build, root key fetched). -/
def restoredAgent : ICAgent :=
  (@ICAgent.init Nat {} (.resolved ⟨some ⟨"aaaaa-aa"⟩⟩) false (.resolved ())).2.1

/-- The agent after a further `login()` in which the provider hands out the identity
`bbbbb-bb` and the root key cannot be fetched. -/
def agentAfterFailedRelogin : ICAgent :=
  (@ICAgent.login Nat restoredAgent (.resolved ⟨"bbbbb-bb"⟩) false
    (.rejected ⟨"Failed to fetch"⟩)).2.1

/-! ## Refreshes in flight

`loadProperties` and `loadUserTokens` cut at their `await`: the part that runs when the
function is called, and the part that runs when the answer arrives, on whatever state the
client is in by then. Other handlers may run in between. -/

section InFlight
variable {Raw Num : Type}

/-- `loadProperties` up to its `await`: `setIsLoading(true)`, then `getProperties` goes
out. Without an actor the agent throws instead, and the error is handed back at once. -/
def App.loadPropertiesStart (x : Exec Num) : Exec Num × Option JsError :=
  let x1 := x.setApp fun s => { s with isLoading := true }
  match x1.w.agent.actor with
  | none => (x1, some (mkError "Not authenticated"))
  | some _ => (x1.issue [.getProperties], none)

/-- `loadProperties` from the point where `getProperties` has settled: the `catch` of the
hook, then the `try`, `catch` and `finally` of `App`. -/
def App.loadPropertiesResume (js : Js Raw Num) (y : Exec Num)
    (answer : Outcome (List (PropertyRecord Raw))) : Exec Num :=
  let y2 := match answer with
    | .resolved propertiesData =>
      y.setApp fun s => { s with properties := propertiesData.map (formatProperty js) }
    | .rejected error =>
      App.showNotification (y.setIC fun s => { s with error := some error.message })
        ("Error al cargar propiedades: " ++ error.message) "error"
  y2.setApp fun s => { s with isLoading := false }

/-- `loadUserTokens` up to its `await`. -/
def App.loadUserTokensStart (x : Exec Num) : Exec Num × Option JsError :=
  match x.w.agent.actor with
  | none => (x, some (mkError "Not authenticated"))
  | some _ => (x.issue [.getUserTokens], none)

/-- `loadUserTokens` from the point where `getUserTokens` has settled. -/
def App.loadUserTokensResume [DecidableEq Num] (js : Js Raw Num) (y : Exec Num)
    (answer : Outcome (List (TokenData Raw))) : Exec Num :=
  match answer with
  | .resolved tokensData =>
    y.setApp fun s => { s with userTokens := buildTokensMap js tokensData }
  | .rejected error =>
    (y.setIC fun s => { s with error := some error.message }).emit
      [.consoleError "Error al cargar tokens del usuario:" error]

/-- The client together with the number of refresh fetches sent and not yet answered. -/
structure Refreshing (Num : Type) where
  x : Exec Num
  catalogFetches : Nat
  ledgerFetches : Nat
deriving DecidableEq, Repr

/-- A call of `loadProperties`: it runs up to its `await` and leaves a fetch in flight. -/
def Refreshing.loadProperties (js : Js Raw Num) (s : Refreshing Num) : Refreshing Num :=
  match App.loadPropertiesStart s.x with
  | (x1, none) => { s with x := x1, catalogFetches := s.catalogFetches + 1 }
  | (x1, some error) => { s with x := App.loadPropertiesResume js x1 (.rejected error) }

/-- The answer to a `getProperties` fetch in flight arrives. -/
def Refreshing.getPropertiesSettles (js : Js Raw Num) (s : Refreshing Num)
    (answer : Outcome (List (PropertyRecord Raw))) : Refreshing Num :=
  if s.catalogFetches = 0 then s
  else { s with x := App.loadPropertiesResume js s.x answer
                catalogFetches := s.catalogFetches - 1 }

/-- A call of `loadUserTokens`: it runs up to its `await` and leaves a fetch in flight. -/
def Refreshing.loadUserTokens [DecidableEq Num] (js : Js Raw Num) (s : Refreshing Num) :
    Refreshing Num :=
  match App.loadUserTokensStart s.x with
  | (x1, none) => { s with x := x1, ledgerFetches := s.ledgerFetches + 1 }
  | (x1, some error) => { s with x := App.loadUserTokensResume js x1 (.rejected error) }

/-- The answer to a `getUserTokens` fetch in flight arrives. -/
def Refreshing.getUserTokensSettles [DecidableEq Num] (js : Js Raw Num) (s : Refreshing Num)
    (answer : Outcome (List (TokenData Raw))) : Refreshing Num :=
  if s.ledgerFetches = 0 then s
  else { s with x := App.loadUserTokensResume js s.x answer
                ledgerFetches := s.ledgerFetches - 1 }

/-- `disconnect`, run while fetches may be in flight. -/
def Refreshing.disconnect (s : Refreshing Num) (r : Outcome Unit) : Refreshing Num :=
  { s with x := App.disconnect s.x r }

end InFlight

/-- The connected client with both refreshes of the connection effect in flight. -/
def refreshesInFlight : Refreshing Nat :=
  Refreshing.loadUserTokens natJs
    (Refreshing.loadProperties natJs ⟨connectedExec, 0, 0⟩)

/-- The user disconnects while both refreshes are in flight, then both answers arrive. -/
def answersAfterDisconnect : Refreshing Nat :=
  Refreshing.getUserTokensSettles natJs
    (Refreshing.getPropertiesSettles natJs (refreshesInFlight.disconnect (.resolved ()))
      (.resolved [recordAfterBuy]))
    (.resolved [⟨1, 6⟩])

/-- On the connected client `loadProperties` and `loadUserTokens` are each called twice
before any answer arrives. -/
def overlappingRefreshes : Refreshing Nat :=
  Refreshing.loadUserTokens natJs (Refreshing.loadUserTokens natJs
    (Refreshing.loadProperties natJs (Refreshing.loadProperties natJs ⟨connectedExec, 0, 0⟩)))

/-! ## Theorems -/

section Lemmas
variable {Raw Num : Type}

theorem callsOf_append (s t : List (Event Num)) : callsOf (s ++ t) = callsOf s ++ callsOf t := by
  induction s with
  | nil => rfl
  | cons e s ih => cases e <;> simp [callsOf, ih]

theorem notificationsOf_append (s t : List (Event Num)) :
    notificationsOf (s ++ t) = notificationsOf s ++ notificationsOf t := by
  induction s with
  | nil => rfl
  | cons e s ih => cases e <;> simp [notificationsOf, ih]

end Lemmas

/-- C1: with no actor bound, each of the seven backend methods of `ICAgent` rejects with
the error `Not authenticated` and invokes no method of the remote actor. -/
theorem ICAgent_unbound_actor_fails_fast {Raw Num α β γ : Type} (a : ICAgent)
    (h : a.actor = none) (propertyId amount : Num) (transferId : Option Num)
    (recipient : String) (rProps : Outcome (List (PropertyRecord Raw)))
    (rBuy rTransfer : Outcome LedgerResult) (rTokens : Outcome (List (TokenData Raw)))
    (rDetails : Outcome α) (rBalance : Outcome β) (rHistory : Outcome γ) :
    a.getProperties rProps = (.rejected ⟨"Not authenticated"⟩, ([] : List (Call Num))) ∧
    a.buyTokens propertyId amount rBuy = (.rejected ⟨"Not authenticated"⟩, []) ∧
    a.getUserTokens rTokens = (.rejected ⟨"Not authenticated"⟩, ([] : List (Call Num))) ∧
    a.transferTokens transferId amount recipient rTransfer
      = (.rejected ⟨"Not authenticated"⟩, []) ∧
    a.getPropertyDetails propertyId rDetails = (.rejected ⟨"Not authenticated"⟩, []) ∧
    a.getUserBalance rBalance = (.rejected ⟨"Not authenticated"⟩, ([] : List (Call Num))) ∧
    a.getUserTransactionHistory rHistory
      = (.rejected ⟨"Not authenticated"⟩, ([] : List (Call Num))) := by
  simp [ICAgent.getProperties, ICAgent.buyTokens, ICAgent.getUserTokens,
    ICAgent.transferTokens, ICAgent.getPropertyDetails, ICAgent.getUserBalance,
    ICAgent.getUserTransactionHistory, ICAgent.viaActor, h, mkError]

/-- Witness of C1 at the freshly constructed agent. -/
theorem ICAgent_unbound_actor_fails_fast_witness :
    ({} : ICAgent).actor = none ∧
    ICAgent.buyTokens ({} : ICAgent) (1 : Nat) 1 (.resolved .ok)
      = (.rejected ⟨"Not authenticated"⟩, []) :=
  ⟨rfl, (@ICAgent_unbound_actor_fails_fast Nat Nat Unit Unit Unit ({} : ICAgent) rfl 1 1 none
    "" (.resolved []) (.resolved .ok) (.resolved .ok) (.resolved []) (.resolved ())
    (.resolved ()) (.resolved ())).2.1⟩

/-- C2: while `isConnected` is false, `App.buyTokens` and `App.transferTokens` return after
emitting one error notification: no external call is issued, the hook and the agent are
not touched, and `isLoading`, `properties` and `userTokens` keep their values. Hence a
remote buy or transfer request is only ever issued from a state with `isConnected` true. -/
theorem App_mutations_require_connection {Raw Num : Type} [DecidableEq Num]
    (js : Js Raw Num) (x : Exec Num) (h : x.w.ic.isConnected = false)
    (propertyId amount : Num) (rBuy rTransfer : Outcome LedgerResult)
    (rProps : Outcome (List (PropertyRecord Raw))) (rTokens : Outcome (List (TokenData Raw))) :
    (callsOf (App.buyTokens js x propertyId amount rBuy rProps rTokens).trace
        = callsOf x.trace ∧
      notificationsOf (App.buyTokens js x propertyId amount rBuy rProps rTokens).trace
        = notificationsOf x.trace ++ [⟨"Debes conectarte primero", "error"⟩] ∧
      (App.buyTokens js x propertyId amount rBuy rProps rTokens).w.app.isLoading
        = x.w.app.isLoading ∧
      (App.buyTokens js x propertyId amount rBuy rProps rTokens).w.app.properties
        = x.w.app.properties ∧
      (App.buyTokens js x propertyId amount rBuy rProps rTokens).w.app.userTokens
        = x.w.app.userTokens ∧
      (App.buyTokens js x propertyId amount rBuy rProps rTokens).w.ic = x.w.ic ∧
      (App.buyTokens js x propertyId amount rBuy rProps rTokens).w.agent = x.w.agent) ∧
    (callsOf (App.transferTokens js x rTransfer rTokens).trace = callsOf x.trace ∧
      notificationsOf (App.transferTokens js x rTransfer rTokens).trace
        = notificationsOf x.trace ++ [⟨"Debes proporcionar un Principal válido", "error"⟩] ∧
      (App.transferTokens js x rTransfer rTokens).w.app.isLoading = x.w.app.isLoading ∧
      (App.transferTokens js x rTransfer rTokens).w.app.properties = x.w.app.properties ∧
      (App.transferTokens js x rTransfer rTokens).w.app.userTokens = x.w.app.userTokens ∧
      (App.transferTokens js x rTransfer rTokens).w.ic = x.w.ic ∧
      (App.transferTokens js x rTransfer rTokens).w.agent = x.w.agent) := by
  simp [App.buyTokens, App.transferTokens, h, App.showNotification, Exec.setApp, Exec.emit,
    callsOf_append, notificationsOf_append, callsOf, notificationsOf]

/-- Witness of C2 at the anonymous client. -/
theorem App_mutations_require_connection_witness :
    anonymousExec.w.ic.isConnected = false ∧
    callsOf (App.buyTokens natJs anonymousExec 1 1 (.resolved .ok) (.resolved [])
      (.resolved [])).trace = callsOf anonymousExec.trace :=
  ⟨rfl, (App_mutations_require_connection natJs anonymousExec rfl 1 1 (.resolved .ok)
    (.resolved .ok) (.resolved []) (.resolved [])).1.1⟩

/-- C3, as stated, fails for a transfer: on the connected client an accepted transfer
issues `transferTokens` and `getUserTokens` only, so the catalog is not refreshed. -/
theorem transfer_accepted_refreshes_catalog_counterexample :
    ¬ (Call.getProperties ∈
          callsOf (App.transferTokens natJs connectedExec (.resolved .ok)
            (.resolved [⟨1, 2⟩])).trace ∧
        Call.getUserTokens ∈
          callsOf (App.transferTokens natJs connectedExec (.resolved .ok)
            (.resolved [⟨1, 2⟩])).trace) := by
  decide

/-- C3 (amended): in a connected state with a bound actor, an accepted buy issues
`buyTokens`, then `getProperties` (inside `loadProperties`), then `getUserTokens` (inside
`loadUserTokens`) before it settles, and each answer that arrives replaces its cache: the
catalog becomes the formatted answer of `getProperties`, the balances the object built from
the answer of `getUserTokens`. An accepted transfer with a non-blank recipient issues
`transferTokens`, then `getUserTokens` only: the balances are replaced by the answer, the
catalog is not fetched again and keeps its contents. -/
theorem accepted_mutation_refreshes {Raw Num : Type} [DecidableEq Num] (js : Js Raw Num)
    (x : Exec Num) (hc : x.w.ic.isConnected = true) (ha : x.w.agent.actor ≠ none)
    (propertyId amount : Num) (rProps : Outcome (List (PropertyRecord Raw)))
    (rTokens : Outcome (List (TokenData Raw))) (propertiesData : List (PropertyRecord Raw))
    (tokensData : List (TokenData Raw)) :
    (callsOf (App.buyTokens js x propertyId amount (.resolved .ok) rProps rTokens).trace
        = callsOf x.trace ++ [.buyTokens propertyId amount, .getProperties, .getUserTokens] ∧
      (App.buyTokens js x propertyId amount (.resolved .ok) (.resolved propertiesData)
          rTokens).w.app.properties = propertiesData.map (formatProperty js) ∧
      (App.buyTokens js x propertyId amount (.resolved .ok) rProps
          (.resolved tokensData)).w.app.userTokens = buildTokensMap js tokensData ∧
      (App.buyTokens js x propertyId amount (.resolved .ok) rProps rTokens).w.app.isLoading
        = false) ∧
    (truthy (jsTrim x.w.app.recipientPrincipal) = true →
      callsOf (App.transferTokens js x (.resolved .ok) rTokens).trace
        = callsOf x.trace ++
          [.transferTokens x.w.app.transferPropertyId x.w.app.transferAmount
            (jsTrim x.w.app.recipientPrincipal), .getUserTokens] ∧
      (App.transferTokens js x (.resolved .ok) (.resolved tokensData)).w.app.userTokens
        = buildTokensMap js tokensData ∧
      (App.transferTokens js x (.resolved .ok) rTokens).w.app.properties
        = x.w.app.properties ∧
      (App.transferTokens js x (.resolved .ok) rTokens).w.app.isLoading = false) := by
  obtain ⟨⟨agent, ic, app⟩, trace⟩ := x
  obtain ⟨authClient, actor, identity⟩ := agent
  cases actor with
  | none => exact absurd rfl ha
  | some act =>
    simp only at hc
    refine ⟨?_, ?_⟩
    · cases rProps <;> cases rTokens <;>
        simp [App.buyTokens, hc, App.showNotification, App.loadProperties, App.loadUserTokens,
          useIC.buyTokens, useIC.getProperties, useIC.getUserTokens, ICAgent.buyTokens,
          ICAgent.getProperties, ICAgent.getUserTokens, ICAgent.viaActor, Exec.setApp,
          Exec.setIC, Exec.emit, Exec.issue, callsOf_append, callsOf]
    · intro hr
      simp only at hr
      cases rTokens <;>
        simp [App.transferTokens, hc, hr, App.showNotification, App.loadUserTokens,
          useIC.transferTokens, useIC.getUserTokens, ICAgent.transferTokens,
          ICAgent.getUserTokens, ICAgent.viaActor, Exec.setApp,
          Exec.setIC, Exec.emit, Exec.issue, callsOf_append, callsOf]

/-- Witness of the amended C3: an accepted transfer on the connected client, whose balance
refresh answers two tokens left of property 1. -/
theorem accepted_mutation_refreshes_witness :
    (connectedExec.w.ic.isConnected = true ∧ connectedExec.w.agent.actor ≠ none ∧
      truthy (jsTrim connectedExec.w.app.recipientPrincipal) = true) ∧
    (App.transferTokens natJs connectedExec (.resolved .ok)
      (.resolved [⟨1, 2⟩])).w.app.userTokens = buildTokensMap natJs [⟨1, 2⟩] ∧
    (App.buyTokens natJs connectedExec 1 1 (.resolved .ok) (.resolved [recordAfterBuy])
      (.resolved [⟨1, 6⟩])).w.app.properties = [recordAfterBuy].map (formatProperty natJs) :=
  ⟨⟨rfl, by decide, by decide⟩,
    ((accepted_mutation_refreshes natJs connectedExec rfl (by decide) 1 1 (.resolved [])
      (.resolved [⟨1, 2⟩]) [recordAfterBuy] [⟨1, 2⟩]).2 (by decide)).2.1,
    (accepted_mutation_refreshes natJs connectedExec rfl (by decide) 1 1 (.resolved [])
      (.resolved [⟨1, 6⟩]) [recordAfterBuy] [⟨1, 6⟩]).1.2.1⟩

section ObjLemmas
variable {Raw Num : Type} [DecidableEq Num]

theorem objGet_objSet (m : List (Num × Num)) (k v k' : Num) :
    objGet (objSet m k v) k' = if k = k' then some v else objGet m k' := by
  induction m with
  | nil => simp [objSet, objGet]
  | cons e m ih =>
    obtain ⟨k0, v0⟩ := e
    by_cases h0 : k0 = k
    · subst h0
      by_cases h1 : k0 = k' <;> simp [objSet, objGet, h1]
    · by_cases h1 : k0 = k'
      · subst h1
        have : ¬ k = k0 := fun h => h0 h.symm
        simp [objSet, objGet, h0, this]
      · simp [objSet, objGet, h0, h1, ih]

theorem keys_objSet (m : List (Num × Num)) (k v : Num) :
    (objSet m k v).map Prod.fst
      = if k ∈ m.map Prod.fst then m.map Prod.fst else m.map Prod.fst ++ [k] := by
  induction m with
  | nil => simp [objSet]
  | cons e m ih =>
    obtain ⟨k0, v0⟩ := e
    by_cases h0 : k0 = k
    · subst h0
      simp [objSet]
    · have h0' : ¬ k = k0 := fun h => h0 h.symm
      by_cases hm : k ∈ m.map Prod.fst
      · simp only [objSet, h0, if_false, List.map_cons, ih, if_pos hm]
        simp [hm]
      · simp only [objSet, h0, if_false, List.map_cons, ih, if_neg hm]
        have : ¬ k ∈ k0 :: m.map Prod.fst := by
          simp only [List.mem_cons, not_or]
          exact ⟨h0', hm⟩
        simp [this, List.mem_cons, h0']

theorem keys_nodup_objSet (m : List (Num × Num)) (k v : Num)
    (h : (m.map Prod.fst).Nodup) : ((objSet m k v).map Prod.fst).Nodup := by
  rw [keys_objSet]
  by_cases hm : k ∈ m.map Prod.fst
  · simpa [hm] using h
  · rw [if_neg hm]
    exact List.Nodup.append h (List.nodup_singleton k) (by simpa using hm)

theorem mem_keys_iff_objGet (m : List (Num × Num)) (k : Num) :
    k ∈ m.map Prod.fst ↔ (objGet m k).isSome = true := by
  induction m with
  | nil => simp [objGet]
  | cons e m ih =>
    obtain ⟨k0, v0⟩ := e
    by_cases h0 : k0 = k
    · simp [objGet, h0]
    · have h0' : ¬ k = k0 := fun h => h0 h.symm
      simp [objGet, h0, h0', ih]

/-- The object built from `acc` by the `forEach` of `loadUserTokens`. -/
theorem objGet_foldl (js : Js Raw Num) (tokensData : List (TokenData Raw))
    (acc : List (Num × Num)) (k : Num) :
    objGet (tokensData.foldl (fun tokensMap tokenData =>
        objSet tokensMap (js.Number tokenData.propertyId) (js.Number tokenData.amount)) acc) k
      = match tokensData.reverse.find? fun t => js.Number t.propertyId = k with
        | some t => some (js.Number t.amount)
        | none => objGet acc k := by
  induction tokensData using List.reverseRecOn with
  | nil => simp
  | append_singleton ts t ih =>
    rw [List.foldl_append]
    simp only [List.foldl_cons, List.foldl_nil, List.reverse_append, List.reverse_cons,
      List.reverse_nil, List.nil_append, List.singleton_append, objGet_objSet]
    by_cases h : js.Number t.propertyId = k
    · simp [List.find?, h]
    · simp [List.find?, h, ih]

theorem keys_nodup_foldl (js : Js Raw Num) (tokensData : List (TokenData Raw))
    (acc : List (Num × Num)) (h : (acc.map Prod.fst).Nodup) :
    ((tokensData.foldl (fun tokensMap tokenData =>
        objSet tokensMap (js.Number tokenData.propertyId) (js.Number tokenData.amount))
        acc).map Prod.fst).Nodup := by
  induction tokensData generalizing acc with
  | nil => simpa using h
  | cons t ts ih => exact ih _ (keys_nodup_objSet _ _ _ h)

end ObjLemmas

/-- C4: after a successful `loadUserTokens` the `userTokens` object depends on the answer
of `getUserTokens` alone (two runs from different prior states give the same object); it has
one entry per key, its keys are exactly the converted `propertyId`s of the answer, and each
key is mapped to the converted `amount` of the last element of the answer with that key. -/
theorem loadUserTokens_rebuilds_from_answer {Raw Num : Type} [DecidableEq Num]
    (js : Js Raw Num) (x x' : Exec Num) (hx : x.w.agent.actor ≠ none)
    (hx' : x'.w.agent.actor ≠ none) (tokensData : List (TokenData Raw)) :
    (App.loadUserTokens js x (.resolved tokensData)).w.app.userTokens
      = (App.loadUserTokens js x' (.resolved tokensData)).w.app.userTokens ∧
    (((App.loadUserTokens js x (.resolved tokensData)).w.app.userTokens).map Prod.fst).Nodup ∧
    (∀ k, k ∈ ((App.loadUserTokens js x (.resolved tokensData)).w.app.userTokens).map Prod.fst
      ↔ ∃ t ∈ tokensData, js.Number t.propertyId = k) ∧
    (∀ k, objGet (App.loadUserTokens js x (.resolved tokensData)).w.app.userTokens k
      = (tokensData.reverse.find? fun t => js.Number t.propertyId = k).map
          fun t => js.Number t.amount) := by
  have key : ∀ y : Exec Num, y.w.agent.actor ≠ none →
      (App.loadUserTokens js y (.resolved tokensData)).w.app.userTokens
        = buildTokensMap js tokensData := by
    intro y hy
    obtain ⟨⟨⟨authClient, actor, identity⟩, ic, app⟩, trace⟩ := y
    cases actor with
    | none => exact absurd rfl hy
    | some act =>
      simp [App.loadUserTokens, useIC.getUserTokens, ICAgent.getUserTokens, ICAgent.viaActor,
        Exec.setApp, Exec.issue, Exec.emit]
  have get : ∀ k, objGet (buildTokensMap js tokensData) k
      = (tokensData.reverse.find? fun t => js.Number t.propertyId = k).map
          fun t => js.Number t.amount := by
    intro k
    rw [buildTokensMap, objGet_foldl]
    cases tokensData.reverse.find? fun t => js.Number t.propertyId = k <;> simp [objGet]
  rw [key x hx, key x' hx']
  refine ⟨rfl, ?_, ?_, get⟩
  · exact keys_nodup_foldl js tokensData [] (by simp)
  · intro k
    rw [mem_keys_iff_objGet, get]
    simp only [Option.isSome_map', List.find?_isSome, List.mem_reverse]
    constructor
    · rintro ⟨t, ht, hk⟩
      exact ⟨t, ht, by simpa using hk⟩
    · rintro ⟨t, ht, hk⟩
      exact ⟨t, ht, by simpa using hk⟩

/-- Witness of C4: two connected clients holding different balances. -/
theorem loadUserTokens_rebuilds_from_answer_witness :
    (connectedExec.w.agent.actor ≠ none ∧
      (connectedExec.setApp fun s => { s with userTokens := [(7, 7)] }).w.agent.actor ≠ none) ∧
    (App.loadUserTokens natJs connectedExec
        (.resolved [⟨1, 5⟩, ⟨2, 3⟩, ⟨1, 7⟩])).w.app.userTokens
      = (App.loadUserTokens natJs
          (connectedExec.setApp fun s => { s with userTokens := [(7, 7)] })
          (.resolved [⟨1, 5⟩, ⟨2, 3⟩, ⟨1, 7⟩])).w.app.userTokens :=
  ⟨⟨by decide, by decide⟩,
    (loadUserTokens_rebuilds_from_answer natJs connectedExec
      (connectedExec.setApp fun s => { s with userTokens := [(7, 7)] }) (by decide)
      (by decide) [⟨1, 5⟩, ⟨2, 3⟩, ⟨1, 7⟩]).1⟩

/-- C5: in a connected state with a bound actor, when the canister answers a buy with the
rejection `err r`, only that one call is issued (no refresh), `properties` and `userTokens`
are unchanged, the operation settles (`isLoading` false) and the one notification emitted
is the error `Error en la compra: ` followed by the literal `r`; likewise a transfer with a
non-blank recipient answered with `err r` issues only `transferTokens`, leaves both caches
unchanged, and emits the error `Error en la transferencia: ` followed by `r`. -/
theorem ledger_rejection_settles_as_failure {Raw Num : Type} [DecidableEq Num]
    (js : Js Raw Num) (x : Exec Num) (hc : x.w.ic.isConnected = true)
    (ha : x.w.agent.actor ≠ none) (propertyId amount : Num) (r : String)
    (rProps : Outcome (List (PropertyRecord Raw))) (rTokens : Outcome (List (TokenData Raw))) :
    (callsOf (App.buyTokens js x propertyId amount (.resolved (.err r)) rProps rTokens).trace
        = callsOf x.trace ++ [.buyTokens propertyId amount] ∧
      notificationsOf
          (App.buyTokens js x propertyId amount (.resolved (.err r)) rProps rTokens).trace
        = notificationsOf x.trace ++ [⟨"Error en la compra: " ++ r, "error"⟩] ∧
      (App.buyTokens js x propertyId amount (.resolved (.err r)) rProps rTokens).w.app.properties
        = x.w.app.properties ∧
      (App.buyTokens js x propertyId amount (.resolved (.err r)) rProps rTokens).w.app.userTokens
        = x.w.app.userTokens ∧
      (App.buyTokens js x propertyId amount (.resolved (.err r)) rProps rTokens).w.app.isLoading
        = false) ∧
    (truthy (jsTrim x.w.app.recipientPrincipal) = true →
      callsOf (App.transferTokens js x (.resolved (.err r)) rTokens).trace
        = callsOf x.trace ++
          [.transferTokens x.w.app.transferPropertyId x.w.app.transferAmount
            (jsTrim x.w.app.recipientPrincipal)] ∧
      notificationsOf (App.transferTokens js x (.resolved (.err r)) rTokens).trace
        = notificationsOf x.trace ++ [⟨"Error en la transferencia: " ++ r, "error"⟩] ∧
      (App.transferTokens js x (.resolved (.err r)) rTokens).w.app.properties
        = x.w.app.properties ∧
      (App.transferTokens js x (.resolved (.err r)) rTokens).w.app.userTokens
        = x.w.app.userTokens ∧
      (App.transferTokens js x (.resolved (.err r)) rTokens).w.app.isLoading = false) := by
  obtain ⟨⟨⟨authClient, actor, identity⟩, ic, app⟩, trace⟩ := x
  cases actor with
  | none => exact absurd rfl ha
  | some act =>
    simp only at hc
    refine ⟨?_, ?_⟩
    · simp [App.buyTokens, hc, App.showNotification, useIC.buyTokens, ICAgent.buyTokens,
        ICAgent.viaActor, Exec.setApp, Exec.setIC, Exec.emit, Exec.issue, callsOf_append,
        notificationsOf_append, callsOf, notificationsOf]
    · intro hr
      simp only at hr
      simp [App.transferTokens, hc, hr, App.showNotification, useIC.transferTokens,
        ICAgent.transferTokens, ICAgent.viaActor, Exec.setApp, Exec.setIC, Exec.emit,
        Exec.issue, callsOf_append, notificationsOf_append, callsOf, notificationsOf]

/-- Witness of C5: scenario C of the specification on the connected client. -/
theorem ledger_rejection_settles_as_failure_witness :
    (connectedExec.w.ic.isConnected = true ∧ connectedExec.w.agent.actor ≠ none) ∧
    notificationsOf (App.buyTokens natJs connectedExec 2 100
        (.resolved (.err "insufficient tokens")) (.resolved []) (.resolved [])).trace
      = notificationsOf connectedExec.trace ++
        [⟨"Error en la compra: " ++ "insufficient tokens", "error"⟩] :=
  ⟨⟨rfl, by decide⟩,
    (ledger_rejection_settles_as_failure natJs connectedExec rfl (by decide) 2 100
      "insufficient tokens" (.resolved []) (.resolved [])).1.2.1⟩

section TrimLemmas

theorem jsTrim_blank (s : String) (h : ∀ c ∈ s.data, isJsWhiteSpace c = true) :
    truthy (jsTrim s) = false := by
  have h1 : s.data.dropWhile isJsWhiteSpace = [] := by
    rw [List.dropWhile_eq_nil_iff]
    exact h
  simp [truthy, jsTrim, h1]

end TrimLemmas

/-- C6: a transfer whose recipient is empty or made of white space only is rejected by
`transferTokens` itself: no external call is issued, `isLoading`, `userTokens` and the
fields of the transfer modal keep their values, and the one notification emitted is the
invalid-recipient error, `Debes proporcionar un Principal válido`. -/
theorem blank_recipient_rejected_client_side {Raw Num : Type} [DecidableEq Num]
    (js : Js Raw Num) (x : Exec Num)
    (h : ∀ c ∈ x.w.app.recipientPrincipal.data, isJsWhiteSpace c = true)
    (rTransfer : Outcome LedgerResult) (rTokens : Outcome (List (TokenData Raw))) :
    callsOf (App.transferTokens js x rTransfer rTokens).trace = callsOf x.trace ∧
    notificationsOf (App.transferTokens js x rTransfer rTokens).trace
      = notificationsOf x.trace ++ [⟨"Debes proporcionar un Principal válido", "error"⟩] ∧
    (App.transferTokens js x rTransfer rTokens).w.app.isLoading = x.w.app.isLoading ∧
    (App.transferTokens js x rTransfer rTokens).w.app.userTokens = x.w.app.userTokens ∧
    (App.transferTokens js x rTransfer rTokens).w.app.showTransferModal
      = x.w.app.showTransferModal ∧
    (App.transferTokens js x rTransfer rTokens).w.app.transferAmount
      = x.w.app.transferAmount ∧
    (App.transferTokens js x rTransfer rTokens).w.app.transferPropertyId
      = x.w.app.transferPropertyId ∧
    (App.transferTokens js x rTransfer rTokens).w.app.recipientPrincipal
      = x.w.app.recipientPrincipal := by
  have hb := jsTrim_blank x.w.app.recipientPrincipal h
  simp [App.transferTokens, hb, App.showNotification, Exec.setApp, Exec.emit,
    callsOf_append, notificationsOf_append, callsOf, notificationsOf]

/-- Witness of C6: scenario B of the specification, the connected client with the
recipient field emptied. -/
theorem blank_recipient_rejected_client_side_witness :
    (∀ c ∈ (connectedExec.setApp fun s =>
        { s with recipientPrincipal := "" }).w.app.recipientPrincipal.data,
      isJsWhiteSpace c = true) ∧
    callsOf (App.transferTokens natJs
        (connectedExec.setApp fun s => { s with recipientPrincipal := "" })
        (.resolved .ok) (.resolved [])).trace
      = callsOf (connectedExec.setApp fun s => { s with recipientPrincipal := "" }).trace :=
  ⟨by decide,
    (blank_recipient_rejected_client_side natJs
      (connectedExec.setApp fun s => { s with recipientPrincipal := "" }) (by decide)
      (.resolved .ok) (.resolved [])).1⟩

/-- C7 fails on the code: when the provider rejects the logout, the `catch` of the hook's
`logout` records the error and does not rethrow (the one of `login` does), so the promise
resolves and the `catch` of `disconnect` is never reached. On the connected client
`disconnect` then empties both caches and announces `Desconectado exitosamente` while
`isConnected`, the principal, the identity and the actor all stay in place. -/
theorem failed_logout_reported_as_success :
    (useIC.logout connectedExec (.rejected ⟨"Failed to fetch"⟩)).1 = .resolved () ∧
    (useIC.login anonymousExec (.rejected ⟨"Failed to fetch"⟩) true (.resolved ())).1
      = some (.rejected ⟨"Failed to fetch"⟩) ∧
    disconnectAfterFailedLogout.w.ic.isConnected = true ∧
    disconnectAfterFailedLogout.w.ic.principal = "aaaaa-aa" ∧
    disconnectAfterFailedLogout.w.ic.error = some "Failed to fetch" ∧
    disconnectAfterFailedLogout.w.agent.identity = some ⟨"aaaaa-aa"⟩ ∧
    disconnectAfterFailedLogout.w.agent.actor = some ⟨some ⟨"aaaaa-aa"⟩⟩ ∧
    disconnectAfterFailedLogout.w.app.properties = [] ∧
    disconnectAfterFailedLogout.w.app.userTokens = [] ∧
    notificationsOf disconnectAfterFailedLogout.trace
      = [⟨"Desconectado exitosamente", "success"⟩] ∧
    ¬ (disconnectAfterFailedLogout.w.ic.isConnected = false ∧
        disconnectAfterFailedLogout.w.ic.principal = "" ∧
        disconnectAfterFailedLogout.w.agent.identity = none ∧
        disconnectAfterFailedLogout.w.agent.actor = none ∧
        disconnectAfterFailedLogout.w.app.properties = [] ∧
        disconnectAfterFailedLogout.w.app.userTokens = []) := by
  decide

/-- Where the provider's logout succeeds `disconnect` does what is asked of it: once the
auth client exists, it ends with the session anonymous (`isConnected` false, principal
empty, identity and actor `null`) and both caches cleared, from every state, the anonymous
one included. When the provider's logout fails, `isConnected`, the principal and the agent
are left as they were. -/
theorem disconnect_ends_anonymous_on_provider_success {Num : Type} (x : Exec Num)
    (h : x.w.agent.authClient ≠ none) :
    ((App.disconnect x (.resolved ())).w.ic.isConnected = false ∧
      (App.disconnect x (.resolved ())).w.ic.principal = "" ∧
      (App.disconnect x (.resolved ())).w.agent.identity = none ∧
      (App.disconnect x (.resolved ())).w.agent.actor = none ∧
      (App.disconnect x (.resolved ())).w.app.properties = [] ∧
      (App.disconnect x (.resolved ())).w.app.userTokens = []) ∧
    (∀ e, (App.disconnect x (.rejected e)).w.ic.isConnected = x.w.ic.isConnected ∧
      (App.disconnect x (.rejected e)).w.ic.principal = x.w.ic.principal ∧
      (App.disconnect x (.rejected e)).w.agent = x.w.agent) := by
  obtain ⟨⟨⟨authClient, actor, identity⟩, ic, app⟩, trace⟩ := x
  cases authClient with
  | none => exact absurd rfl h
  | some c =>
    simp [App.disconnect, useIC.logout, ICAgent.logout, App.showNotification, Exec.setApp,
      Exec.setIC, Exec.setAgent, Exec.emit, Exec.issue]

/-- The success path at the connected client: a logout the provider accepts leaves the
session anonymous and the catalog cache, which held one property, empty. -/
theorem disconnect_ends_anonymous_on_provider_success_witness :
    (connectedExec.w.agent.authClient ≠ none ∧ connectedExec.w.ic.isConnected = true ∧
      connectedExec.w.app.properties ≠ []) ∧
    (App.disconnect connectedExec (.resolved ())).w.ic.isConnected = false ∧
    (App.disconnect connectedExec (.resolved ())).w.app.properties = [] :=
  ⟨⟨by decide, rfl, by decide⟩,
    (disconnect_ends_anonymous_on_provider_success connectedExec (by decide)).1.1,
    (disconnect_ends_anonymous_on_provider_success connectedExec (by decide)).1.2.2.2.2.1⟩

/-- C8 fails on the code: when the provider hands out an identity and `createActor` then
throws, `login()` never settles. `connectWithII` does not settle either and emits no
notification, the agent holds the new identity without an actor, and the hook stays
`isLoading` with `isConnected` false and an empty principal. -/
theorem login_actor_failure_leaves_half_session :
    loginWithActorFailure.1 = false ∧
    loginWithActorFailure.2.w.agent.identity = some ⟨"aaaaa-aa"⟩ ∧
    loginWithActorFailure.2.w.agent.actor = none ∧
    loginWithActorFailure.2.w.ic.isConnected = false ∧
    loginWithActorFailure.2.w.ic.principal = "" ∧
    loginWithActorFailure.2.w.ic.isLoading = true ∧
    loginWithActorFailure.2.w.ic.error = none ∧
    notificationsOf loginWithActorFailure.2.trace = [] := by
  decide

/-- C9: in every state of the hook reachable from the first render through `initIC`,
`login` and `logout`, whatever the provider answers (the identities it issues having a
non-empty principal text), the principal is non-empty if and only if `isConnected` is true.
The induction carries one more fact: the principal is empty as long as the auth client has
not been created. -/
theorem principal_set_iff_connected {Raw Num : Type} (js : Js Raw Num) (x : Exec Num)
    (hx : HookReachable js x) : x.w.ic.principal ≠ "" ↔ x.w.ic.isConnected = true := by
  have inv : (x.w.ic.principal ≠ "" ↔ x.w.ic.isConnected = true) ∧
      (x.w.agent.authClient = none → x.w.ic.principal = "") := by
    induction hx with
    | mount => simp [World.initial]
    | initIC x created production rootKey _ hnone hid ih =>
      obtain ⟨⟨⟨authClient, actor, identity⟩, ic, app⟩, trace⟩ := x
      simp only at hnone
      subst hnone
      have hp : ic.principal = "" := ih.2 rfl
      have hc : ic.isConnected = false := by
        have := ih.1
        simp only [hp, ne_eq, not_true_eq_false, false_iff] at this
        simpa using this
      cases created with
      | rejected e =>
        simp [useIC.initIC, ICAgent.init, Exec.setIC, Exec.setAgent, Exec.issue, Exec.emit, hp, hc]
      | resolved c =>
        obtain ⟨session⟩ := c
        cases session with
        | none =>
          simp [useIC.initIC, ICAgent.init, AuthClient.isAuthenticated, ICAgent.isAuthenticated,
            Exec.setIC, Exec.setAgent, Exec.issue, Exec.emit, hp]
        | some i =>
          have hi : i.principal ≠ "" := hid i rfl
          cases production with
          | true =>
            simp [useIC.initIC, ICAgent.init, ICAgent.createActor, AuthClient.isAuthenticated,
              AuthClient.getIdentity, ICAgent.isAuthenticated, ICAgent.getPrincipal,
              Exec.setIC, Exec.setAgent, Exec.issue, Exec.emit, hi]
          | false =>
            cases rootKey with
            | rejected e =>
              simp [useIC.initIC, ICAgent.init, ICAgent.createActor, AuthClient.isAuthenticated,
                AuthClient.getIdentity, Exec.setIC, Exec.setAgent, Exec.issue, Exec.emit, hp, hc]
            | resolved u =>
              simp [useIC.initIC, ICAgent.init, ICAgent.createActor, AuthClient.isAuthenticated,
                AuthClient.getIdentity, ICAgent.isAuthenticated, ICAgent.getPrincipal,
                Exec.setIC, Exec.setAgent, Exec.issue, Exec.emit, hi]
    | login x provider production rootKey _ hid ih =>
      obtain ⟨⟨⟨authClient, actor, identity⟩, ic, app⟩, trace⟩ := x
      cases authClient with
      | none =>
        simpa [useIC.login, ICAgent.login, Exec.setIC, Exec.setAgent, Exec.issue, Exec.emit]
          using ih
      | some c =>
        cases provider with
        | rejected e =>
          simpa [useIC.login, ICAgent.login, Exec.setIC, Exec.setAgent, Exec.issue, Exec.emit]
            using ih
        | resolved i =>
          have hi : i.principal ≠ "" := hid i rfl
          cases production with
          | true =>
            simp [useIC.login, ICAgent.login, ICAgent.createActor, AuthClient.getIdentity,
              Exec.setIC, Exec.setAgent, Exec.issue, Exec.emit, hi]
          | false =>
            cases rootKey with
            | rejected e =>
              simpa [useIC.login, ICAgent.login, ICAgent.createActor, AuthClient.getIdentity,
                Exec.setIC, Exec.setAgent, Exec.issue, Exec.emit] using ih.1
            | resolved u =>
              simp [useIC.login, ICAgent.login, ICAgent.createActor, AuthClient.getIdentity,
                Exec.setIC, Exec.setAgent, Exec.issue, Exec.emit, hi]
    | logout x r _ ih =>
      obtain ⟨⟨⟨authClient, actor, identity⟩, ic, app⟩, trace⟩ := x
      cases authClient with
      | none =>
        simpa [useIC.logout, ICAgent.logout, Exec.setIC, Exec.setAgent, Exec.issue, Exec.emit]
          using ih
      | some c =>
        cases r with
        | rejected e =>
          simpa [useIC.logout, ICAgent.logout, Exec.setIC, Exec.setAgent, Exec.issue, Exec.emit]
            using ih.1
        | resolved u =>
          simp [useIC.logout, ICAgent.logout, Exec.setIC, Exec.setAgent, Exec.issue, Exec.emit]
  exact inv.1

/-- Witness of C9: the state after the mount effect found no session and a login
succeeded. -/
theorem principal_set_iff_connected_witness :
    HookReachable natJs loggedInAfterMount ∧
    (loggedInAfterMount.w.ic.principal ≠ "" ↔ loggedInAfterMount.w.ic.isConnected = true) :=
  have hr : HookReachable natJs loggedInAfterMount :=
    HookReachable.login _ _ _ _
      (HookReachable.initIC _ _ _ _ HookReachable.mount rfl
        (fun j hj => by simp [createdIdentity] at hj))
      (fun j hj => by
        simp only [providedIdentity, Option.some.injEq] at hj
        subst hj
        decide)
  ⟨hr, principal_set_iff_connected natJs loggedInAfterMount hr⟩

/-- C10 fails on the code: during an accepted buy on the connected client, `loadProperties`
resets `isLoading` in its `finally`, so while `getUserTokens` is still pending the purchase
modal is on screen with its confirm button enabled, and confirming again issues a second
`buyTokens` call to the canister. -/
theorem buy_reconciliation_reenables_confirm :
    Event.call .getUserTokens viewDuringLedgerRefresh ∈ acceptedBuy.trace ∧
    viewDuringLedgerRefresh.app.isLoading = false ∧
    App.showsPurchaseModal viewDuringLedgerRefresh = true ∧
    PurchaseModal.confirmDisabled viewDuringLedgerRefresh.app.isLoading = false ∧
    acceptedBuy.w.agent = connectedExec.w.agent ∧
    callsOf (App.buyTokens natJs duringLedgerRefresh 1 1 (.resolved .ok)
        (.resolved [recordAfterBuy]) (.resolved [⟨1, 7⟩])).trace
      = [.buyTokens 1 1, .getProperties, .getUserTokens] := by
  decide

/-- C11 fails on the code: `showNotification` never cancels the timer of the notification it
replaces. With a first notification at instant 0 and a second at instant 2000, the second is
on screen at instant 2999 and is cleared at instant 3000 by the timer of the first, 1000 ms
after it was emitted, although no later call replaced it and its own timer is due at 5000. -/
theorem stale_timer_clears_later_notification :
    twoNotifications.now = 2000 ∧
    twoNotifications.x.w.app.notification
      = some ⟨"¡Compra exitosa! 1 tokens de Casa", "success"⟩ ∧
    twoNotifications.timers = [3000, 5000] ∧
    (twoNotifications.advance 999).x.w.app.notification
      = some ⟨"¡Compra exitosa! 1 tokens de Casa", "success"⟩ ∧
    (twoNotifications.advance 1000).now = 3000 ∧
    (twoNotifications.advance 1000).x.w.app.notification = none ∧
    (twoNotifications.advance 1000).timers = [5000] := by
  decide

section AmountLemmas
variable {Raw Num : Type}

theorem loadProperties_amounts (js : Js Raw Num) (x : Exec Num)
    (r : Outcome (List (PropertyRecord Raw))) :
    (App.loadProperties js x r).w.app.purchaseAmount = x.w.app.purchaseAmount ∧
    (App.loadProperties js x r).w.app.transferAmount = x.w.app.transferAmount := by
  obtain ⟨⟨⟨authClient, actor, identity⟩, ic, app⟩, trace⟩ := x
  cases actor <;> cases r <;>
    simp [App.loadProperties, useIC.getProperties, ICAgent.getProperties, ICAgent.viaActor,
      App.showNotification, Exec.setApp, Exec.setIC, Exec.emit, Exec.issue]

theorem loadUserTokens_amounts [DecidableEq Num] (js : Js Raw Num) (x : Exec Num)
    (r : Outcome (List (TokenData Raw))) :
    (App.loadUserTokens js x r).w.app.purchaseAmount = x.w.app.purchaseAmount ∧
    (App.loadUserTokens js x r).w.app.transferAmount = x.w.app.transferAmount := by
  obtain ⟨⟨⟨authClient, actor, identity⟩, ic, app⟩, trace⟩ := x
  cases actor <;> cases r <;>
    simp [App.loadUserTokens, useIC.getUserTokens, ICAgent.getUserTokens, ICAgent.viaActor,
      Exec.setApp, Exec.setIC, Exec.emit, Exec.issue]

theorem buyTokens_amounts [DecidableEq Num] (js : Js Raw Num) (x : Exec Num)
    (propertyId amount : Num) (rBuy : Outcome LedgerResult)
    (rProps : Outcome (List (PropertyRecord Raw))) (rTokens : Outcome (List (TokenData Raw))) :
    (App.buyTokens js x propertyId amount rBuy rProps rTokens).w.app.purchaseAmount
      = x.w.app.purchaseAmount ∧
    (App.buyTokens js x propertyId amount rBuy rProps rTokens).w.app.transferAmount
      = x.w.app.transferAmount := by
  obtain ⟨⟨⟨authClient, actor, identity⟩, ⟨isConnected, principal, icLoading, error⟩, app⟩,
    trace⟩ := x
  cases isConnected
  · simp [App.buyTokens, App.showNotification, Exec.setApp, Exec.emit]
  · cases actor with
    | none =>
      simp [App.buyTokens, useIC.buyTokens, ICAgent.buyTokens, ICAgent.viaActor,
        App.showNotification, Exec.setApp, Exec.setIC, Exec.emit, Exec.issue]
    | some act =>
      rcases rBuy with (_ | reason) | e
      · have h1 := loadProperties_amounts js
        have h2 := loadUserTokens_amounts js
        simp [App.buyTokens, useIC.buyTokens, ICAgent.buyTokens, ICAgent.viaActor,
          App.showNotification, Exec.setApp, Exec.setIC, Exec.emit, Exec.issue, h1, h2]
      · simp [App.buyTokens, useIC.buyTokens, ICAgent.buyTokens, ICAgent.viaActor,
          App.showNotification, Exec.setApp, Exec.setIC, Exec.emit, Exec.issue]
      · simp [App.buyTokens, useIC.buyTokens, ICAgent.buyTokens, ICAgent.viaActor,
          App.showNotification, Exec.setApp, Exec.setIC, Exec.emit, Exec.issue]

theorem transferTokens_amounts [DecidableEq Num] (js : Js Raw Num) (x : Exec Num)
    (rTransfer : Outcome LedgerResult) (rTokens : Outcome (List (TokenData Raw))) :
    (App.transferTokens js x rTransfer rTokens).w.app.purchaseAmount
      = x.w.app.purchaseAmount ∧
    ((App.transferTokens js x rTransfer rTokens).w.app.transferAmount
        = x.w.app.transferAmount ∨
      (App.transferTokens js x rTransfer rTokens).w.app.transferAmount = js.one) := by
  obtain ⟨⟨⟨authClient, actor, identity⟩, ⟨isConnected, principal, icLoading, error⟩, app⟩,
    trace⟩ := x
  by_cases hg : (!isConnected || !truthy (jsTrim app.recipientPrincipal)) = true
  · simp [App.transferTokens, hg, App.showNotification, Exec.setApp, Exec.emit]
  · cases actor with
    | none =>
      simp [App.transferTokens, hg, useIC.transferTokens, ICAgent.transferTokens,
        ICAgent.viaActor, App.showNotification, Exec.setApp, Exec.setIC, Exec.emit,
        Exec.issue]
    | some act =>
      rcases rTransfer with (_ | reason) | e
      · have h2 := loadUserTokens_amounts js
        simp [App.transferTokens, hg, useIC.transferTokens, ICAgent.transferTokens,
          ICAgent.viaActor, App.showNotification, Exec.setApp, Exec.setIC, Exec.emit,
          Exec.issue, h2]
      · simp [App.transferTokens, hg, useIC.transferTokens, ICAgent.transferTokens,
          ICAgent.viaActor, App.showNotification, Exec.setApp, Exec.setIC, Exec.emit,
          Exec.issue]
      · simp [App.transferTokens, hg, useIC.transferTokens, ICAgent.transferTokens,
          ICAgent.viaActor, App.showNotification, Exec.setApp, Exec.setIC, Exec.emit,
          Exec.issue]

theorem initIC_app (x : Exec Num) (created : Outcome AuthClient) (production : Bool)
    (rootKey : Outcome Unit) : (useIC.initIC x created production rootKey).w.app = x.w.app := by
  unfold useIC.initIC
  split
  · simp only [Exec.setIC, Exec.setAgent, Exec.issue, Exec.emit]
    split <;> rfl
  · rfl

theorem connectWithII_amounts (x : Exec Num) (provider : Outcome Identity)
    (production : Bool) (rootKey : Outcome Unit) :
    (App.connectWithII x provider production rootKey).2.w.app.purchaseAmount
      = x.w.app.purchaseAmount ∧
    (App.connectWithII x provider production rootKey).2.w.app.transferAmount
      = x.w.app.transferAmount := by
  obtain ⟨⟨⟨authClient, actor, identity⟩, ic, app⟩, trace⟩ := x
  cases authClient <;> cases provider <;> cases production <;> cases rootKey <;>
    simp [App.connectWithII, useIC.login, ICAgent.login, ICAgent.createActor,
      App.showNotification, Exec.setApp, Exec.setIC, Exec.setAgent, Exec.emit, Exec.issue]

theorem disconnect_amounts (x : Exec Num) (r : Outcome Unit) :
    (App.disconnect x r).w.app.purchaseAmount = x.w.app.purchaseAmount ∧
    (App.disconnect x r).w.app.transferAmount = x.w.app.transferAmount := by
  obtain ⟨⟨⟨authClient, actor, identity⟩, ic, app⟩, trace⟩ := x
  cases authClient <;> cases r <;>
    simp [App.disconnect, useIC.logout, ICAgent.logout, App.showNotification, Exec.setApp,
      Exec.setIC, Exec.setAgent, Exec.emit, Exec.issue]

end AmountLemmas

/-- C12, as stated, fails: with nine tokens on offer and five owned, typing `10` in the
purchase modal and confirming issues `buyTokens(1, 10)`, and typing `6` in the transfer
modal and confirming issues `transferTokens(1, 6, bob)`. -/
theorem oversized_amount_rejected_counterexample :
    (formatProperty doubleJs recordAfterBuy).availableTokens = .int 9 ∧
    objGet typingClient.w.app.userTokens (.int 1) = some (.int 5) ∧
    ¬ (callsOf (App.onPurchaseConfirm doubleJs (PurchaseModal.onAmountChange typingClient "10")
        (.resolved (.err "insufficient tokens")) (.resolved []) (.resolved [])).trace = []) ∧
    callsOf (App.onPurchaseConfirm doubleJs (PurchaseModal.onAmountChange typingClient "10")
        (.resolved (.err "insufficient tokens")) (.resolved []) (.resolved [])).trace
      = [.buyTokens (.int 1) (.int 10)] ∧
    ¬ (callsOf (App.transferTokens doubleJs (TransferModal.onAmountChange typingClient "6")
        (.resolved (.err "insufficient balance")) (.resolved [])).trace = []) ∧
    callsOf (App.transferTokens doubleJs (TransferModal.onAmountChange typingClient "6")
        (.resolved (.err "insufficient balance")) (.resolved [])).trace
      = [.transferTokens (some (.int 1)) (.int 6) "bob"] := by
  decide!

/-- C12 (amended): before submission only the connection and, for a transfer, the
non-blank recipient are checked. In a connected state with a bound actor every buy is
submitted, `buyTokens` carrying the amount it was given, whatever the tokens on offer; every
transfer with a non-blank recipient is submitted, `transferTokens` carrying the stored
`transferAmount`, whatever the cached balance. -/
theorem amount_is_submitted_unchecked {Raw Num : Type} [DecidableEq Num] (js : Js Raw Num)
    (x : Exec Num) (hc : x.w.ic.isConnected = true) (ha : x.w.agent.actor ≠ none)
    (propertyId amount : Num) (rBuy rTransfer : Outcome LedgerResult)
    (rProps : Outcome (List (PropertyRecord Raw))) (rTokens : Outcome (List (TokenData Raw))) :
    (∃ rest, callsOf (App.buyTokens js x propertyId amount rBuy rProps rTokens).trace
      = callsOf x.trace ++ Call.buyTokens propertyId amount :: rest) ∧
    (truthy (jsTrim x.w.app.recipientPrincipal) = true →
      ∃ rest, callsOf (App.transferTokens js x rTransfer rTokens).trace
        = callsOf x.trace ++
          Call.transferTokens x.w.app.transferPropertyId x.w.app.transferAmount
            (jsTrim x.w.app.recipientPrincipal) :: rest) := by
  obtain ⟨⟨⟨authClient, actor, identity⟩, ic, app⟩, trace⟩ := x
  cases actor with
  | none => exact absurd rfl ha
  | some act =>
    simp only at hc
    refine ⟨?_, ?_⟩
    · rcases rBuy with (_ | reason) | e
      · cases rProps <;> cases rTokens <;>
          simp [App.buyTokens, hc, App.showNotification, App.loadProperties,
            App.loadUserTokens, useIC.buyTokens, useIC.getProperties, useIC.getUserTokens,
            ICAgent.buyTokens, ICAgent.getProperties, ICAgent.getUserTokens,
            ICAgent.viaActor, Exec.setApp, Exec.setIC, Exec.emit, Exec.issue,
            callsOf_append, callsOf]
      · simp [App.buyTokens, hc, App.showNotification, useIC.buyTokens, ICAgent.buyTokens,
          ICAgent.viaActor, Exec.setApp, Exec.setIC, Exec.emit, Exec.issue, callsOf_append,
          callsOf]
      · simp [App.buyTokens, hc, App.showNotification, useIC.buyTokens, ICAgent.buyTokens,
          ICAgent.viaActor, Exec.setApp, Exec.setIC, Exec.emit, Exec.issue, callsOf_append,
          callsOf]
    · intro hr
      simp only at hr
      rcases rTransfer with (_ | reason) | e
      · cases rTokens <;>
          simp [App.transferTokens, hc, hr, App.showNotification, App.loadUserTokens,
            useIC.transferTokens, useIC.getUserTokens, ICAgent.transferTokens,
            ICAgent.getUserTokens, ICAgent.viaActor, Exec.setApp, Exec.setIC, Exec.emit,
            Exec.issue, callsOf_append, callsOf]
      · simp [App.transferTokens, hc, hr, App.showNotification, useIC.transferTokens,
          ICAgent.transferTokens, ICAgent.viaActor, Exec.setApp, Exec.setIC, Exec.emit,
          Exec.issue, callsOf_append, callsOf]
      · simp [App.transferTokens, hc, hr, App.showNotification, useIC.transferTokens,
          ICAgent.transferTokens, ICAgent.viaActor, Exec.setApp, Exec.setIC, Exec.emit,
          Exec.issue, callsOf_append, callsOf]

/-- Witness of the amended C12: a buy of 100 tokens of a property with ten on offer. -/
theorem amount_is_submitted_unchecked_witness :
    (connectedExec.w.ic.isConnected = true ∧ connectedExec.w.agent.actor ≠ none) ∧
    ∃ rest, callsOf (App.buyTokens natJs connectedExec 1 100
        (.resolved (.err "insufficient tokens")) (.resolved []) (.resolved [])).trace
      = callsOf connectedExec.trace ++ Call.buyTokens 1 100 :: rest :=
  ⟨⟨rfl, by decide⟩,
    (amount_is_submitted_unchecked natJs connectedExec rfl (by decide) 1 100
      (.resolved (.err "insufficient tokens")) (.resolved .ok) (.resolved [])
      (.resolved [])).1⟩

/-- C13, as stated, fails for a run of 310 digits: `parseInt` answers `Infinity`, which
`|| 1` and `Math.max(1, ..)` leave alone, so the stored amount is not an integer. -/
theorem amount_is_positive_integer_counterexample :
    ¬ ((amountFromInput overlongDigits).isPositiveInteger = true) := by
  decide!

/-- C13 (amended): for every text `value`, the amount `Math.max(1, parseInt(value) || 1)`
is at least 1: a positive integer, or `Infinity`, which it is exactly when `parseInt(value)`
is `Infinity`. It equals `parseInt(value)` when that is at least 1 and equals 1 otherwise.
With the initial value 1 and the resets to 1, `purchaseAmount` and `transferAmount` are at
least 1 in every reachable state. -/
theorem amounts_at_least_one {Raw : Type} (js : Js Raw JsNumber) (hone : js.one = .int 1)
    (x : Exec JsNumber) (hx : AppReachable js x) (value : String) :
    (amountFromInput value).atLeastOne = true ∧
    (amountFromInput value = .posInf ↔ parseInt value = .posInf) ∧
    ((amountFromInput value).isPositiveInteger = true ∨ amountFromInput value = .posInf) ∧
    ((parseInt value).atLeastOne = true → amountFromInput value = parseInt value) ∧
    ((parseInt value).atLeastOne = false → amountFromInput value = .int 1) ∧
    x.w.app.purchaseAmount.atLeastOne = true ∧ x.w.app.transferAmount.atLeastOne = true := by
  have hv : ∀ p : JsNumber,
      (mathMax (.int 1) (jsOr p (.int 1))).atLeastOne = true ∧
      (mathMax (.int 1) (jsOr p (.int 1)) = .posInf ↔ p = .posInf) ∧
      ((mathMax (.int 1) (jsOr p (.int 1))).isPositiveInteger = true ∨
        mathMax (.int 1) (jsOr p (.int 1)) = .posInf) ∧
      (p.atLeastOne = true → mathMax (.int 1) (jsOr p (.int 1)) = p) ∧
      (p.atLeastOne = false → mathMax (.int 1) (jsOr p (.int 1)) = .int 1) := by
    intro p
    cases p with
    | nan => decide
    | posInf => decide
    | negInf => decide
    | int v =>
      by_cases h0 : v = 0
      · subst h0
        decide
      · by_cases h1 : 1 ≤ v
        · have h2 : max 1 v = v := max_eq_right h1
          simp [mathMax, jsOr, JsNumber.truthy, JsNumber.le, JsNumber.atLeastOne,
            JsNumber.isPositiveInteger, h0, h1]
        · have h2 : ¬ (1 : Int) ≤ v := h1
          simp [mathMax, jsOr, JsNumber.truthy, JsNumber.le, JsNumber.atLeastOne,
            JsNumber.isPositiveInteger, h0, h1]
  have hreach : x.w.app.purchaseAmount.atLeastOne = true ∧
      x.w.app.transferAmount.atLeastOne = true := by
    induction hx with
    | mount => simp [World.initial, AppState.initial, hone, JsNumber.atLeastOne]
    | initIC x created production rootKey _ ih => simpa [initIC_app] using ih
    | connectWithII x provider production rootKey _ ih =>
      obtain ⟨h1, h2⟩ := connectWithII_amounts x provider production rootKey
      rw [h1, h2]
      exact ih
    | disconnect x r _ ih =>
      obtain ⟨h1, h2⟩ := disconnect_amounts x r
      rw [h1, h2]
      exact ih
    | loadProperties x r _ ih =>
      obtain ⟨h1, h2⟩ := loadProperties_amounts js x r
      rw [h1, h2]
      exact ih
    | loadUserTokens x r _ ih =>
      obtain ⟨h1, h2⟩ := loadUserTokens_amounts js x r
      rw [h1, h2]
      exact ih
    | buyTokens x propertyId amount rBuy rProps rTokens _ ih =>
      obtain ⟨h1, h2⟩ := buyTokens_amounts js x propertyId amount rBuy rProps rTokens
      rw [h1, h2]
      exact ih
    | transferTokens x rTransfer rTokens _ ih =>
      obtain ⟨h1, h2⟩ := transferTokens_amounts js x rTransfer rTokens
      rw [h1]
      refine ⟨ih.1, ?_⟩
      rcases h2 with h2 | h2
      · rw [h2]
        exact ih.2
      · rw [h2, hone]
        decide
    | clearNotification x _ ih => simpa [Exec.setApp] using ih
    | onBuyClick x property _ ih => simpa [App.onBuyClick, Exec.setApp] using ih
    | handleTransferClick x propertyId _ ih =>
      simpa [App.handleTransferClick, Exec.setApp] using ih
    | onPurchaseCancel x _ ih => simpa [App.onPurchaseCancel, Exec.setApp] using ih
    | onTransferCancel x _ ih =>
      simpa [App.onTransferCancel, Exec.setApp, hone, JsNumber.atLeastOne] using ih.1
    | onRecipientChange x value _ ih =>
      simpa [TransferModal.onRecipientChange, Exec.setApp] using ih
    | purchaseAmountChange x value _ ih =>
      exact ⟨(hv (parseInt value)).1, ih.2⟩
    | transferAmountChange x value _ ih =>
      exact ⟨ih.1, (hv (parseInt value)).1⟩
  exact ⟨(hv (parseInt value)).1, (hv (parseInt value)).2.1, (hv (parseInt value)).2.2.1,
    (hv (parseInt value)).2.2.2.1, (hv (parseInt value)).2.2.2.2, hreach.1, hreach.2⟩

/-- Witness of the amended C13: the state after `12` was typed into the purchase modal of a
freshly mounted client. -/
theorem amounts_at_least_one_witness :
    (doubleJs.one = .int 1 ∧
      AppReachable doubleJs
        (PurchaseModal.onAmountChange ⟨World.initial doubleJs, []⟩ "12")) ∧
    (PurchaseModal.onAmountChange ⟨World.initial doubleJs, []⟩ "12"
      ).w.app.purchaseAmount.atLeastOne = true :=
  ⟨⟨rfl, AppReachable.purchaseAmountChange _ _ AppReachable.mount⟩,
    (amounts_at_least_one doubleJs rfl _
      (AppReachable.purchaseAmountChange _ "12" AppReachable.mount) "12").2.2.2.2.2.1⟩

/-- C14: in a connected state with a bound actor, when the `getProperties` call of
`loadProperties` fails, the catalog cache keeps its contents (so it stays empty right after
login), the balances are untouched, one error notification is emitted, `isLoading` ends
false, and `isConnected`, the principal and the agent are unchanged. -/
theorem catalog_failure_keeps_cache_and_session {Raw Num : Type} (js : Js Raw Num)
    (x : Exec Num) (hc : x.w.ic.isConnected = true) (ha : x.w.agent.actor ≠ none)
    (e : JsError) :
    (App.loadProperties js x (.rejected e)).w.app.properties = x.w.app.properties ∧
    (x.w.app.properties = [] → (App.loadProperties js x (.rejected e)).w.app.properties = []) ∧
    (App.loadProperties js x (.rejected e)).w.app.userTokens = x.w.app.userTokens ∧
    notificationsOf (App.loadProperties js x (.rejected e)).trace
      = notificationsOf x.trace ++ [⟨"Error al cargar propiedades: " ++ e.message, "error"⟩] ∧
    (App.loadProperties js x (.rejected e)).w.app.isLoading = false ∧
    (App.loadProperties js x (.rejected e)).w.ic.isConnected = true ∧
    (App.loadProperties js x (.rejected e)).w.ic.principal = x.w.ic.principal ∧
    (App.loadProperties js x (.rejected e)).w.agent = x.w.agent := by
  obtain ⟨⟨⟨authClient, actor, identity⟩, ic, app⟩, trace⟩ := x
  cases actor with
  | none => exact absurd rfl ha
  | some act =>
    simp only at hc
    simp [App.loadProperties, useIC.getProperties, ICAgent.getProperties, ICAgent.viaActor,
      App.showNotification, Exec.setApp, Exec.setIC, Exec.emit, Exec.issue, hc,
      callsOf_append, notificationsOf_append, callsOf, notificationsOf]

/-- Witness of C14: scenario D of the specification, a login followed by a failing
`getProperties`. -/
theorem catalog_failure_keeps_cache_and_session_witness :
    (justLoggedIn.w.ic.isConnected = true ∧ justLoggedIn.w.agent.actor ≠ none) ∧
    (App.loadProperties natJs justLoggedIn (.rejected ⟨"Failed to fetch"⟩)).w.app.properties
      = [] :=
  ⟨⟨by decide, by decide⟩,
    (catalog_failure_keeps_cache_and_session natJs justLoggedIn (by decide) (by decide)
      ⟨"Failed to fetch"⟩).2.1 (by decide)⟩

/-- C15, as stated, fails: an accepted buy, and an accepted transfer, whose balance refresh
fails emits exactly the notifications of the run whose refreshes succeed, so no
notification tells the two apart. -/
theorem stale_view_notification_counterexample :
    ¬ ((∃ n ∈ notificationsOf buyWithFailedLedgerRefresh.trace,
          n ∉ notificationsOf acceptedBuy.trace) ∨
        (∃ n ∈ notificationsOf transferWithFailedLedgerRefresh.trace,
          n ∉ notificationsOf acceptedTransfer.trace)) := by
  decide

/-- C15 (amended): in a connected state with a bound actor, an accepted buy settles with
the plain success notification whatever the refreshes answer. A failing `getUserTokens`
emits no notification; a failing `getProperties` emits the error notification of
`loadProperties` first, which the success notification then replaces. An accepted transfer
with a non-blank recipient emits the success notification only, whatever `getUserTokens`
answers. -/
theorem accepted_mutation_reports_plain_success {Raw Num : Type} [DecidableEq Num]
    (js : Js Raw Num) (x : Exec Num) (hc : x.w.ic.isConnected = true)
    (ha : x.w.agent.actor ≠ none) (propertyId amount : Num)
    (rProps : Outcome (List (PropertyRecord Raw))) (rTokens : Outcome (List (TokenData Raw))) :
    (notificationsOf (App.buyTokens js x propertyId amount (.resolved .ok) rProps rTokens).trace
        = notificationsOf x.trace ++
          (match rProps with
            | .resolved _ => []
            | .rejected e => [⟨"Error al cargar propiedades: " ++ e.message, "error"⟩]) ++
          [⟨"¡Compra exitosa! " ++ js.numText amount ++ " tokens de " ++
              titleText (x.w.app.properties.find? fun (p : Property Num) => p.id = propertyId),
            "success"⟩] ∧
      (App.buyTokens js x propertyId amount (.resolved .ok) rProps rTokens).w.app.notification
        = some ⟨"¡Compra exitosa! " ++ js.numText amount ++ " tokens de " ++
              titleText (x.w.app.properties.find? fun (p : Property Num) => p.id = propertyId),
            "success"⟩) ∧
    (truthy (jsTrim x.w.app.recipientPrincipal) = true →
      notificationsOf (App.transferTokens js x (.resolved .ok) rTokens).trace
        = notificationsOf x.trace ++
          [⟨js.numText x.w.app.transferAmount ++ " tokens transferidos exitosamente",
            "success"⟩] ∧
      (App.transferTokens js x (.resolved .ok) rTokens).w.app.notification
        = some ⟨js.numText x.w.app.transferAmount ++ " tokens transferidos exitosamente",
            "success"⟩) := by
  obtain ⟨⟨⟨authClient, actor, identity⟩, ic, app⟩, trace⟩ := x
  cases actor with
  | none => exact absurd rfl ha
  | some act =>
    simp only at hc
    refine ⟨?_, ?_⟩
    · cases rProps <;> cases rTokens <;>
        simp [App.buyTokens, hc, App.showNotification, App.loadProperties,
          App.loadUserTokens, useIC.buyTokens, useIC.getProperties, useIC.getUserTokens,
          ICAgent.buyTokens, ICAgent.getProperties, ICAgent.getUserTokens, ICAgent.viaActor,
          Exec.setApp, Exec.setIC, Exec.emit, Exec.issue, notificationsOf_append,
          notificationsOf]
    · intro hr
      simp only at hr
      cases rTokens <;>
        simp [App.transferTokens, hc, hr, App.showNotification, App.loadUserTokens,
          useIC.transferTokens, useIC.getUserTokens, ICAgent.transferTokens,
          ICAgent.getUserTokens, ICAgent.viaActor, Exec.setApp, Exec.setIC, Exec.emit,
          Exec.issue, notificationsOf_append, notificationsOf]

/-- Witness of the amended C15: the accepted buy whose balance refresh fails. -/
theorem accepted_mutation_reports_plain_success_witness :
    (connectedExec.w.ic.isConnected = true ∧ connectedExec.w.agent.actor ≠ none) ∧
    buyWithFailedLedgerRefresh.w.app.notification
      = some ⟨"¡Compra exitosa! " ++ natJs.numText 1 ++ " tokens de " ++
            titleText (connectedExec.w.app.properties.find? fun (p : Property Nat) => p.id = 1),
          "success"⟩ :=
  ⟨⟨rfl, by decide⟩,
    (accepted_mutation_reports_plain_success natJs connectedExec rfl (by decide) 1 1
      (.resolved [recordAfterBuy]) (.rejected ⟨"Failed to fetch"⟩)).1.2⟩

/-- C16, as stated, fails: while a first `login` is pending (`isLoading` true) a second
call of `login` reaches the identity provider, and while a first `logout` is pending a
second call of `logout` does. -/
theorem busy_session_call_counterexample :
    Event.call .authLogin loginPending.w.view ∈
      (useIC.login anonymousExec (.resolved ⟨"aaaaa-aa"⟩) true (.resolved ())).2.trace ∧
    loginPending.w.ic.isLoading = true ∧
    logoutPending.w.ic.isLoading = true ∧
    ¬ (callsOf (useIC.login loginPending (.resolved ⟨"aaaaa-aa"⟩) true
        (.resolved ())).2.trace = []) ∧
    callsOf (useIC.login loginPending (.resolved ⟨"aaaaa-aa"⟩) true (.resolved ())).2.trace
      = [.authLogin] ∧
    ¬ (callsOf (useIC.logout logoutPending (.resolved ())).2.trace = []) ∧
    callsOf (useIC.logout logoutPending (.resolved ())).2.trace = [.authLogout] := by
  decide

/-- C16 (amended): `login` and `logout` of the hook carry no busy guard. Once the auth
client exists, a call starts an exchange with the identity provider whether `isLoading` is
true or false: `login` issues `authClient.login`, `logout` issues `authClient.logout`. The
one protection is in `LoginScreen`, whose connect button is disabled exactly while the
hook is loading. -/
theorem session_calls_are_not_guarded {Num : Type} (x : Exec Num)
    (h : x.w.agent.authClient ≠ none) (provider : Outcome Identity) (production : Bool)
    (rootKey r : Outcome Unit) :
    (∃ rest, callsOf (useIC.login x provider production rootKey).2.trace
      = callsOf x.trace ++ Call.authLogin :: rest) ∧
    callsOf (useIC.logout x r).2.trace = callsOf x.trace ++ [Call.authLogout] ∧
    LoginScreen.connectDisabled x.w.ic.isLoading = x.w.ic.isLoading := by
  obtain ⟨⟨⟨authClient, actor, identity⟩, ic, app⟩, trace⟩ := x
  cases authClient with
  | none => exact absurd rfl h
  | some c =>
    refine ⟨?_, ?_, rfl⟩
    · cases provider <;> cases production <;> cases rootKey <;>
        simp [useIC.login, ICAgent.login, ICAgent.createActor, Exec.setIC, Exec.setAgent,
          Exec.emit, Exec.issue, callsOf_append, callsOf]
    · cases r <;>
        simp [useIC.logout, ICAgent.logout, Exec.setIC, Exec.setAgent, Exec.emit, Exec.issue,
          callsOf_append, callsOf]

/-- Witness of the amended C16: a second login while the first is pending. -/
theorem session_calls_are_not_guarded_witness :
    (loginPending.w.agent.authClient ≠ none ∧ loginPending.w.ic.isLoading = true) ∧
    callsOf (useIC.logout loginPending (.resolved ())).2.trace
      = callsOf loginPending.trace ++ [Call.authLogout] :=
  ⟨⟨by decide, rfl⟩,
    (session_calls_are_not_guarded loginPending (by decide) (.resolved ⟨"aaaaa-aa"⟩) true
      (.resolved ()) (.resolved ())).2.1⟩

/-- C17 fails on the code: `login()` assigns the new identity before `createActor()` and
keeps it when `createActor()` throws. After `init()` restored the session of `aaaaa-aa`, a
login as `bbbbb-bb` whose root key fetch fails leaves the identity `bbbbb-bb` with the
actor built for `aaaaa-aa`, and the next request goes out through that actor. -/
theorem failed_relogin_keeps_stale_actor :
    restoredAgent.identity = some ⟨"aaaaa-aa"⟩ ∧
    restoredAgent.actor = some ⟨some ⟨"aaaaa-aa"⟩⟩ ∧
    agentAfterFailedRelogin.identity = some ⟨"bbbbb-bb"⟩ ∧
    agentAfterFailedRelogin.actor = some ⟨some ⟨"aaaaa-aa"⟩⟩ ∧
    agentAfterFailedRelogin.actor ≠ some ⟨agentAfterFailedRelogin.identity⟩ ∧
    agentAfterFailedRelogin.buyTokens (1 : Nat) 1 (.resolved .ok)
      = (.resolved .ok, [Call.buyTokens 1 1]) := by
  decide

section InFlightLemmas
variable {Raw Num : Type}

/-- The two halves of `loadProperties` make up the whole. -/
theorem loadProperties_eq_start_resume (js : Js Raw Num) (x : Exec Num)
    (r : Outcome (List (PropertyRecord Raw))) :
    App.loadProperties js x r
      = App.loadPropertiesResume js (App.loadPropertiesStart x).1
          (match (App.loadPropertiesStart x).2 with
            | some error => .rejected error
            | none => r) := by
  obtain ⟨⟨⟨authClient, actor, identity⟩, ic, app⟩, trace⟩ := x
  cases actor <;> cases r <;>
    simp [App.loadProperties, App.loadPropertiesStart, App.loadPropertiesResume,
      useIC.getProperties, ICAgent.getProperties, ICAgent.viaActor, App.showNotification,
      Exec.setApp, Exec.setIC, Exec.emit, Exec.issue]

/-- The two halves of `loadUserTokens` make up the whole. -/
theorem loadUserTokens_eq_start_resume [DecidableEq Num] (js : Js Raw Num) (x : Exec Num)
    (r : Outcome (List (TokenData Raw))) :
    App.loadUserTokens js x r
      = App.loadUserTokensResume js (App.loadUserTokensStart x).1
          (match (App.loadUserTokensStart x).2 with
            | some error => .rejected error
            | none => r) := by
  obtain ⟨⟨⟨authClient, actor, identity⟩, ic, app⟩, trace⟩ := x
  cases actor <;> cases r <;>
    simp [App.loadUserTokens, App.loadUserTokensStart, App.loadUserTokensResume,
      useIC.getUserTokens, ICAgent.getUserTokens, ICAgent.viaActor,
      Exec.setApp, Exec.setIC, Exec.emit, Exec.issue]

end InFlightLemmas

/-- C18, as stated, fails: when the user disconnects while both refreshes are in flight,
the caches are empty right after the logout, and the answers that arrive afterwards are
written into them although the session is anonymous. -/
theorem late_refresh_discarded_counterexample :
    refreshesInFlight.catalogFetches = 1 ∧ refreshesInFlight.ledgerFetches = 1 ∧
    (refreshesInFlight.disconnect (.resolved ())).x.w.app.properties = [] ∧
    (refreshesInFlight.disconnect (.resolved ())).x.w.app.userTokens = [] ∧
    answersAfterDisconnect.x.w.ic.isConnected = false ∧
    answersAfterDisconnect.x.w.agent.actor = none ∧
    ¬ (answersAfterDisconnect.x.w.app.properties = []) ∧
    answersAfterDisconnect.x.w.app.properties = [formatProperty natJs recordAfterBuy] ∧
    ¬ (answersAfterDisconnect.x.w.app.userTokens = []) ∧
    answersAfterDisconnect.x.w.app.userTokens = [(1, 6)] := by
  decide

/-- C18 (amended): a refresh whose answer arrives after a logout is not discarded. Once
the auth client exists, a `disconnect` whose provider logout succeeds leaves both caches
empty and the session anonymous; the answer of a `getProperties` still pending then
replaces the catalog cache and the answer of a pending `getUserTokens` replaces the
balances, while the session stays anonymous. The caches are empty after `disconnect` only
until such an answer arrives. -/
theorem late_refresh_is_written {Raw Num : Type} [DecidableEq Num] (js : Js Raw Num)
    (x : Exec Num) (h : x.w.agent.authClient ≠ none)
    (propertiesData : List (PropertyRecord Raw)) (tokensData : List (TokenData Raw)) :
    ((App.disconnect x (.resolved ())).w.app.properties = [] ∧
      (App.disconnect x (.resolved ())).w.app.userTokens = [] ∧
      (App.disconnect x (.resolved ())).w.ic.isConnected = false) ∧
    ((App.loadPropertiesResume js (App.disconnect x (.resolved ()))
        (.resolved propertiesData)).w.app.properties
        = propertiesData.map (formatProperty js) ∧
      (App.loadPropertiesResume js (App.disconnect x (.resolved ()))
        (.resolved propertiesData)).w.ic.isConnected = false ∧
      (App.loadPropertiesResume js (App.disconnect x (.resolved ()))
        (.resolved propertiesData)).w.agent.actor = none) ∧
    ((App.loadUserTokensResume js (App.disconnect x (.resolved ()))
        (.resolved tokensData)).w.app.userTokens = buildTokensMap js tokensData ∧
      (App.loadUserTokensResume js (App.disconnect x (.resolved ()))
        (.resolved tokensData)).w.ic.isConnected = false ∧
      (App.loadUserTokensResume js (App.disconnect x (.resolved ()))
        (.resolved tokensData)).w.agent.actor = none) := by
  obtain ⟨⟨⟨authClient, actor, identity⟩, ic, app⟩, trace⟩ := x
  cases authClient with
  | none => exact absurd rfl h
  | some c =>
    simp [App.disconnect, useIC.logout, ICAgent.logout, App.showNotification,
      App.loadPropertiesResume, App.loadUserTokensResume, Exec.setApp, Exec.setIC,
      Exec.setAgent, Exec.emit, Exec.issue]

/-- Witness of the amended C18: the catalog answer that arrives after the connected client
has logged out. -/
theorem late_refresh_is_written_witness :
    refreshesInFlight.x.w.agent.authClient ≠ none ∧
    (App.loadPropertiesResume natJs (App.disconnect refreshesInFlight.x (.resolved ()))
      (.resolved [recordAfterBuy])).w.app.properties
      = [recordAfterBuy].map (formatProperty natJs) :=
  ⟨by decide,
    (late_refresh_is_written natJs refreshesInFlight.x (by decide) [recordAfterBuy]
      [⟨1, 6⟩]).2.1.1⟩

/-- C19, as stated, fails: two calls of `loadProperties`, and two of `loadUserTokens`,
made before any answer arrives leave two fetches of each kind in flight, and the cache
holds the first answer until the second arrives and replaces it. -/
theorem refresh_coalescing_counterexample :
    callsOf overlappingRefreshes.x.trace
      = [.getProperties, .getProperties, .getUserTokens, .getUserTokens] ∧
    ¬ (overlappingRefreshes.catalogFetches ≤ 1) ∧ overlappingRefreshes.catalogFetches = 2 ∧
    ¬ (overlappingRefreshes.ledgerFetches ≤ 1) ∧ overlappingRefreshes.ledgerFetches = 2 ∧
    (Refreshing.getPropertiesSettles natJs overlappingRefreshes (.resolved [])
      ).x.w.app.properties = [] ∧
    (Refreshing.getPropertiesSettles natJs
      (Refreshing.getPropertiesSettles natJs overlappingRefreshes (.resolved []))
      (.resolved [recordAfterBuy])).x.w.app.properties
      = [formatProperty natJs recordAfterBuy] := by
  decide

/-- C19 (amended): refreshes are not coalesced. With an actor bound, every call of
`loadProperties` sends its own `getProperties` and every call of `loadUserTokens` its own
`getUserTokens`, whatever is already in flight, so the fetches in flight grow by one with
each call; and every answer that arrives replaces the cache, so the cache holds the answer
that arrived last. -/
theorem refreshes_are_not_coalesced {Raw Num : Type} [DecidableEq Num] (js : Js Raw Num)
    (s : Refreshing Num) (ha : s.x.w.agent.actor ≠ none)
    (propertiesData : List (PropertyRecord Raw)) (tokensData : List (TokenData Raw)) :
    ((Refreshing.loadProperties js s).catalogFetches = s.catalogFetches + 1 ∧
      callsOf (Refreshing.loadProperties js s).x.trace
        = callsOf s.x.trace ++ [.getProperties]) ∧
    ((Refreshing.loadUserTokens js s).ledgerFetches = s.ledgerFetches + 1 ∧
      callsOf (Refreshing.loadUserTokens js s).x.trace
        = callsOf s.x.trace ++ [.getUserTokens]) ∧
    (0 < s.catalogFetches →
      (Refreshing.getPropertiesSettles js s (.resolved propertiesData)).x.w.app.properties
        = propertiesData.map (formatProperty js)) ∧
    (0 < s.ledgerFetches →
      (Refreshing.getUserTokensSettles js s (.resolved tokensData)).x.w.app.userTokens
        = buildTokensMap js tokensData) := by
  obtain ⟨⟨⟨⟨authClient, actor, identity⟩, ic, app⟩, trace⟩, nc, nl⟩ := s
  cases actor with
  | none => exact absurd rfl ha
  | some act =>
    refine ⟨?_, ?_, ?_, ?_⟩
    · simp [Refreshing.loadProperties, App.loadPropertiesStart, Exec.setApp, Exec.emit,
        Exec.issue, callsOf_append, callsOf]
    · simp [Refreshing.loadUserTokens, App.loadUserTokensStart, Exec.setApp, Exec.emit,
        Exec.issue, callsOf_append, callsOf]
    · intro h
      have h0 : ¬ nc = 0 := Nat.pos_iff_ne_zero.mp h
      simp [Refreshing.getPropertiesSettles, h0, App.loadPropertiesResume, Exec.setApp]
    · intro h
      have h0 : ¬ nl = 0 := Nat.pos_iff_ne_zero.mp h
      simp [Refreshing.getUserTokensSettles, h0, App.loadUserTokensResume, Exec.setApp]

/-- Witness of the amended C19: a second `loadProperties` while one is in flight. -/
theorem refreshes_are_not_coalesced_witness :
    (refreshesInFlight.x.w.agent.actor ≠ none ∧ 0 < refreshesInFlight.catalogFetches) ∧
    (Refreshing.loadProperties natJs refreshesInFlight).catalogFetches
      = refreshesInFlight.catalogFetches + 1 :=
  ⟨⟨by decide, by decide⟩,
    (refreshes_are_not_coalesced natJs refreshesInFlight (by decide) [recordAfterBuy]
      [⟨1, 6⟩]).1.1⟩

/-- C20, as stated, fails for `loadUserTokens`: when `getUserTokens` fails on the
connected client the failure is written to the console and no notification is emitted. -/
theorem every_failure_notified_counterexample :
    ¬ (∃ n ∈ notificationsOf
          (App.loadUserTokens natJs connectedExec (.rejected ⟨"Failed to fetch"⟩)).trace,
        n.type = "error") := by
  decide

/-- C20 (amended): in a connected state `x` with a bound actor, a failure of the remote
call of `loadProperties`, `buyTokens` or `transferTokens` (non-blank recipient) is caught
by the operation, which settles and emits one error notification carrying the message of
the failure; so is, in any state `y` whose auth client exists, an error the identity
provider reports to `connectWithII`. A failure of `getUserTokens` in `loadUserTokens` is
caught too, but only logged with `console.error`: no notification is emitted. -/
theorem failures_caught_and_reported {Raw Num : Type} [DecidableEq Num] (js : Js Raw Num)
    (x y : Exec Num) (hc : x.w.ic.isConnected = true) (ha : x.w.agent.actor ≠ none)
    (hp : y.w.agent.authClient ≠ none) (e : JsError) (propertyId amount : Num)
    (production : Bool) (rootKey : Outcome Unit)
    (rProps : Outcome (List (PropertyRecord Raw))) (rTokens : Outcome (List (TokenData Raw))) :
    notificationsOf (App.loadProperties js x (.rejected e)).trace
      = notificationsOf x.trace ++ [⟨"Error al cargar propiedades: " ++ e.message, "error"⟩] ∧
    notificationsOf (App.buyTokens js x propertyId amount (.rejected e) rProps rTokens).trace
      = notificationsOf x.trace ++ [⟨"Error en la compra: " ++ e.message, "error"⟩] ∧
    (truthy (jsTrim x.w.app.recipientPrincipal) = true →
      notificationsOf (App.transferTokens js x (.rejected e) rTokens).trace
        = notificationsOf x.trace ++
          [⟨"Error en la transferencia: " ++ e.message, "error"⟩]) ∧
    ((App.connectWithII y (.rejected e) production rootKey).1 = true ∧
      notificationsOf (App.connectWithII y (.rejected e) production rootKey).2.trace
        = notificationsOf y.trace ++ [⟨"Error al conectar: " ++ e.message, "error"⟩]) ∧
    (notificationsOf (App.loadUserTokens js x (.rejected e)).trace = notificationsOf x.trace ∧
      (App.loadUserTokens js x (.rejected e)).trace
        = x.trace ++ [.call .getUserTokens x.w.view,
            .consoleError "Error al cargar tokens del usuario:" e]) := by
  obtain ⟨⟨⟨authClient, actor, identity⟩, ic, app⟩, trace⟩ := x
  obtain ⟨⟨⟨authClient2, actor2, identity2⟩, ic2, app2⟩, trace2⟩ := y
  cases actor with
  | none => exact absurd rfl ha
  | some act =>
    cases authClient2 with
    | none => exact absurd rfl hp
    | some c =>
      simp only at hc
      refine ⟨?_, ?_, ?_, ?_, ?_⟩
      · simp [App.loadProperties, useIC.getProperties, ICAgent.getProperties,
          ICAgent.viaActor, App.showNotification, Exec.setApp, Exec.setIC, Exec.emit,
          Exec.issue, notificationsOf_append, notificationsOf]
      · simp [App.buyTokens, hc, useIC.buyTokens, ICAgent.buyTokens, ICAgent.viaActor,
          App.showNotification, Exec.setApp, Exec.setIC, Exec.emit, Exec.issue,
          notificationsOf_append, notificationsOf]
      · intro hr
        simp only at hr
        simp [App.transferTokens, hc, hr, useIC.transferTokens, ICAgent.transferTokens,
          ICAgent.viaActor, App.showNotification, Exec.setApp, Exec.setIC, Exec.emit,
          Exec.issue, notificationsOf_append, notificationsOf]
      · simp [App.connectWithII, useIC.login, ICAgent.login, App.showNotification,
          Exec.setApp, Exec.setIC, Exec.setAgent, Exec.emit, Exec.issue,
          notificationsOf_append, notificationsOf]
      · simp [App.loadUserTokens, useIC.getUserTokens, ICAgent.getUserTokens,
          ICAgent.viaActor, Exec.setApp, Exec.setIC, Exec.emit, Exec.issue, World.view,
          notificationsOf_append, notificationsOf]

/-- Witness of the amended C20: a buy whose remote call fails on the connected client, and
a login refused by the provider on the anonymous client. -/
theorem failures_caught_and_reported_witness :
    (connectedExec.w.ic.isConnected = true ∧ connectedExec.w.agent.actor ≠ none ∧
      anonymousExec.w.agent.authClient ≠ none) ∧
    notificationsOf (App.buyTokens natJs connectedExec 1 1 (.rejected ⟨"Failed to fetch"⟩)
        (.resolved []) (.resolved [])).trace
      = notificationsOf connectedExec.trace ++
        [⟨"Error en la compra: " ++ (⟨"Failed to fetch"⟩ : JsError).message, "error"⟩] :=
  ⟨⟨rfl, by decide, by decide⟩,
    (failures_caught_and_reported natJs connectedExec anonymousExec rfl (by decide)
      (by decide) ⟨"Failed to fetch"⟩ 1 1 true (.resolved ()) (.resolved [])
      (.resolved [])).2.1⟩

/-- C21: after a successful `loadProperties` the `properties` cache depends on the answer
of `getProperties` alone (two runs from different prior states give the same list). It has
the length of the answer, and its `i`-th entry is made from the `i`-th record: the numeric
conversions of `id`, `price`, `tokenPrice`, `totalTokens`, `availableTokens`, `soldTokens`,
`bedrooms`, `bathrooms` and `area`, the first key of the `status` variant, and the texts
`title`, `location` and `description` as they came. -/
theorem loadProperties_replaces_catalog {Raw Num : Type} (js : Js Raw Num) (x x' : Exec Num)
    (hx : x.w.agent.actor ≠ none) (hx' : x'.w.agent.actor ≠ none)
    (propertiesData : List (PropertyRecord Raw)) :
    (App.loadProperties js x (.resolved propertiesData)).w.app.properties
      = (App.loadProperties js x' (.resolved propertiesData)).w.app.properties ∧
    ((App.loadProperties js x (.resolved propertiesData)).w.app.properties).length
      = propertiesData.length ∧
    (∀ (i : Nat) (property : PropertyRecord Raw), propertiesData[i]? = some property →
      ∃ p : Property Num,
        ((App.loadProperties js x (.resolved propertiesData)).w.app.properties)[i]? = some p ∧
        p.id = js.Number property.id ∧
        p.price = js.Number property.price ∧
        p.tokenPrice = js.Number property.tokenPrice ∧
        p.totalTokens = js.Number property.totalTokens ∧
        p.availableTokens = js.Number property.availableTokens ∧
        p.soldTokens = js.Number property.soldTokens ∧
        p.bedrooms = js.Number property.bedrooms ∧
        p.bathrooms = js.Number property.bathrooms ∧
        p.area = js.Number property.area ∧
        p.status = property.status.head? ∧
        p.title = property.title ∧
        p.location = property.location ∧
        p.description = property.description) := by
  have key : ∀ y : Exec Num, y.w.agent.actor ≠ none →
      (App.loadProperties js y (.resolved propertiesData)).w.app.properties
        = propertiesData.map (formatProperty js) := by
    intro y hy
    obtain ⟨⟨⟨authClient, actor, identity⟩, ic, app⟩, trace⟩ := y
    cases actor with
    | none => exact absurd rfl hy
    | some act =>
      simp [App.loadProperties, useIC.getProperties, ICAgent.getProperties, ICAgent.viaActor,
        Exec.setApp, Exec.issue, Exec.emit]
  rw [key x hx, key x' hx']
  refine ⟨rfl, List.length_map _ _, ?_⟩
  intro i property hi
  refine ⟨formatProperty js property, ?_, rfl, rfl, rfl, rfl, rfl, rfl, rfl, rfl, rfl, rfl,
    rfl, rfl, rfl⟩
  rw [List.getElem?_map, hi]
  rfl

/-- Witness of C21: the same answer loaded over a cached catalog and over an empty one. -/
theorem loadProperties_replaces_catalog_witness :
    (connectedExec.w.agent.actor ≠ none ∧
      (connectedExec.setApp fun s => { s with properties := [] }).w.agent.actor ≠ none) ∧
    (App.loadProperties natJs connectedExec (.resolved [recordAfterBuy])).w.app.properties
      = (App.loadProperties natJs (connectedExec.setApp fun s => { s with properties := [] })
          (.resolved [recordAfterBuy])).w.app.properties :=
  ⟨⟨by decide, by decide⟩,
    (loadProperties_replaces_catalog natJs connectedExec
      (connectedExec.setApp fun s => { s with properties := [] }) (by decide) (by decide)
      [recordAfterBuy]).1⟩

end Magreste
